import Mathlib

/-!
# The state-flow engine of the Barbeque Nation chatbot

A shallow embedding of the conversation state machine of `src/chatbot/api.go`
(`stateFlowHandler` and the per-state handlers it dispatches to), followed by
theorems about it.

Modelling conventions.

* A Go `string` that reaches the engine was decoded from JSON, hence is valid
  UTF-8; it is modelled by a Lean `String` (a sequence of code points).  A
  substring test with an ASCII needle gives the same answer on bytes and on
  code points.
* `map[string]interface{}` is modelled by a function `String → Option Value`;
  a handler that mutates the map returns the updated map.
* `strings.ToLower` and `strings.Title` consult the Unicode tables of the Go
  standard library.  They are taken as a parameter (`GoStrings`), so every
  general theorem holds for whatever these two functions compute;
  `asciiStrings` is the instance that agrees with Go on ASCII text and is used
  to evaluate the engine on concrete ASCII messages.
* `rand.Intn(1000000)` is modelled by an explicit argument `draw`.
-/

namespace Chatbot

/-! ## Strings -/

/-- Substring test on code-point sequences, as `strings.Contains`. -/
def containsChars : List Char → List Char → Bool
  | [], sub => sub.isPrefixOf []
  | c :: cs, sub => sub.isPrefixOf (c :: cs) || containsChars cs sub

/-- Go `strings.Contains(s, sub)`. -/
def strContains (s sub : String) : Bool :=
  containsChars s.data sub.data

/-- The two standard-library functions that depend on Unicode case tables. -/
structure GoStrings where
  /-- Go `strings.ToLower`. -/
  toLower : String → String
  /-- Go `strings.Title`. -/
  title : String → String

/-- Lower-casing of one ASCII letter; other code points are kept. -/
def asciiLowerChar (c : Char) : Char :=
  if 'A' ≤ c ∧ c ≤ 'Z' then Char.ofNat (c.toNat + 32) else c

/-- Upper-casing of one ASCII letter; other code points are kept. -/
def asciiUpperChar (c : Char) : Char :=
  if 'a' ≤ c ∧ c ≤ 'z' then Char.ofNat (c.toNat - 32) else c

/-- Go `isSeparator` of `strings.Title`, on ASCII: letters, digits and the
underscore are not separators, every other ASCII character is one. -/
def isSeparator (c : Char) : Bool :=
  !(('a' ≤ c ∧ c ≤ 'z') || ('A' ≤ c ∧ c ≤ 'Z') || ('0' ≤ c ∧ c ≤ '9') || c = '_')

/-- The loop of `strings.Title`: a letter that follows a separator is
upper-cased; `prev` is the previous code point. -/
def titleChars : Char → List Char → List Char
  | _, [] => []
  | prev, c :: cs =>
    (if isSeparator prev then asciiUpperChar c else c) :: titleChars c cs

/-- The instance of `GoStrings` that agrees with Go on ASCII text. -/
def asciiStrings : GoStrings where
  toLower := fun s => String.mk (s.data.map asciiLowerChar)
  title := fun s => String.mk (titleChars ' ' s.data)

/-- Go `strings.ReplaceAll(s, "_", " ")`. -/
def replaceUnderscores (s : String) : String :=
  String.mk (s.data.map (fun c => if c = '_' then ' ' else c))

/-- Go `unicode.IsSpace`. -/
def isSpace (c : Char) : Bool :=
  let n := c.toNat
  n = 9 || n = 10 || n = 11 || n = 12 || n = 13 || n = 32 || n = 0x85 || n = 0xA0 ||
  n = 0x1680 || (0x2000 ≤ n && n ≤ 0x200A) || n = 0x2028 || n = 0x2029 ||
  n = 0x202F || n = 0x205F || n = 0x3000

/-- The loop of `strings.Fields`: `cur` is the field being read, reversed. -/
def fieldsAux : List Char → List Char → List (List Char)
  | [], cur => if cur.isEmpty then [] else [cur.reverse]
  | c :: cs, cur =>
    if isSpace c then
      (if cur.isEmpty then fieldsAux cs [] else cur.reverse :: fieldsAux cs [])
    else fieldsAux cs (c :: cur)

/-- Go `strings.Fields`: the maximal runs of non-space code points. -/
def fields (s : List Char) : List (List Char) :=
  fieldsAux s []

/-- Membership in the cutset `",.:;!?"` of `extractNumber`. -/
def inCutset (c : Char) : Bool :=
  c = ',' || c = '.' || c = ':' || c = ';' || c = '!' || c = '?'

/-- Go `strings.Trim(word, ",.:;!?")`. -/
def trimCutset (w : List Char) : List Char :=
  ((w.dropWhile inCutset).reverse.dropWhile inCutset).reverse

/-- Whether a code point is an ASCII digit. -/
def isDigitChar (c : Char) : Bool :=
  decide ('0' ≤ c) && decide (c ≤ '9')

/-- Value of a sequence of ASCII digits, most significant first. -/
def digitsValue (ds : List Char) : Nat :=
  ds.foldl (fun acc c => acc * 10 + (c.toNat - 48)) 0

/-- Go `strconv.Atoi` on a 64-bit platform: an optional sign, then one or
more ASCII digits, the value within the range of `int`; `none` is an error. -/
def atoi (w : List Char) : Option Int :=
  let neg := w.head? = some '-'
  let ds := if w.head? = some '-' ∨ w.head? = some '+' then w.tail else w
  if ds.isEmpty || !ds.all isDigitChar then none
  else
    let v : Int := if neg then -(digitsValue ds : Int) else (digitsValue ds : Int)
    if -(2 : Int) ^ 63 ≤ v ∧ v < (2 : Int) ^ 63 then some v else none

/-- Decimal digit of a number below ten. -/
def digitChar (d : Nat) : Char :=
  Char.ofNat (48 + d)

/-- Decimal digits of `n`, most significant first; `fuel` bounds the loop. -/
def decimalAux : Nat → Nat → List Char → List Char
  | 0, _, acc => acc
  | fuel + 1, n, acc =>
    if n / 10 = 0 then digitChar (n % 10) :: acc
    else decimalAux fuel (n / 10) (digitChar (n % 10) :: acc)

/-- Decimal representation of a natural number. -/
def decimal (n : Nat) : List Char :=
  decimalAux (n + 1) n []

/-- Go `fmt.Sprintf("%06d", n)` for a non-negative `n`: the decimal digits,
left-padded with zeros to width six. -/
def sprintf06d (n : Nat) : String :=
  String.mk (List.replicate (6 - (decimal n).length) '0' ++ decimal n)

/-! ## Context values -/

/-- A value stored in the context: what `encoding/json` decodes into an
`interface{}`, plus the Go `int` that `handleReservationState` stores. -/
inductive Value where
  | str (s : String)
  | int (n : Int)
  | bool (b : Bool)
  | number (q : Rat)
  | null
  | array (items : List Value)
  | object (members : List (String × Value))

/-- The conversation context, `map[string]interface{}`. -/
abbrev Context := String → Option Value

/-- The map without keys (also the model of a `nil` request context, which
`stateFlowHandler` replaces by a fresh map). -/
def emptyContext : Context :=
  fun _ => none

/-- The assignment `context[key] = v`. -/
def setKey (context : Context) (key : String) (v : Value) : Context :=
  fun k => if k = key then some v else context k

/-- The comma-ok type assertion `s, _ := context[key].(string)`: the stored
string, or `""` when the key is absent or holds another type. -/
def getString (context : Context) (key : String) : String :=
  match context key with
  | some (Value.str s) => s
  | _ => ""

/-! ## States -/

/-- The Go type `ConversationState`, a named string type. -/
abbrev ConversationState := String

def StateGreeting : ConversationState := "greeting"
def StateCity : ConversationState := "city"
def StateOutlet : ConversationState := "outlet"
def StateReservation : ConversationState := "reservation"
def StateContact : ConversationState := "contact"
def StateConfirmation : ConversationState := "confirmation"
def StateEnd : ConversationState := "end"

/-- The seven defined state names. -/
def definedStates : List ConversationState :=
  [StateGreeting, StateCity, StateOutlet, StateReservation, StateContact,
   StateConfirmation, StateEnd]

/-- The body of the JSON answer, `StateFlowResponse`. -/
structure StateFlowResponse where
  nextState : String
  response : String
  context : Context
  finished : Bool

/-! ## Helpers of the handlers -/

/-- The source function `extractNumber`, on the list of fields still to be
visited: the first field that, once trimmed, parses as an integer or is a
number word decides; the default is 2. -/
def extractNumberLoop (L : GoStrings) : List (List Char) → Int
  | [] => 2
  | word :: rest =>
    let w := trimCutset word
    match atoi w with
    | some num => num
    | none =>
      let lw := L.toLower (String.mk w)
      if lw = "one" then 1
      else if lw = "two" then 2
      else if lw = "three" then 3
      else if lw = "four" then 4
      else if lw = "five" then 5
      else if lw = "six" then 6
      else if lw = "seven" then 7
      else if lw = "eight" then 8
      else if lw = "nine" then 9
      else if lw = "ten" then 10
      else extractNumberLoop L rest

/-- The source function `extractNumber`. -/
def extractNumber (L : GoStrings) (text : String) : Int :=
  extractNumberLoop L (fields text.data)

/-- The source function `containsPhoneNumber`: the loop counts the code
points between `'0'` and `'9'`, and the result is `digits >= 10`. -/
def containsPhoneNumber (text : String) : Bool :=
  decide (text.data.foldl (fun digits char =>
    if char ≥ '0' ∧ char ≤ '9' then digits + 1 else digits) 0 ≥ 10)

/-- The source function `formatConfirmationMessage`. -/
def formatConfirmationMessage (L : GoStrings) (context : Context) : String :=
  let city := getString context "city"
  let outlet := getString context "outlet"
  let reservation := getString context "reservation_text"
  let contact := getString context "contact"
  let outletDisplay := replaceUnderscores outlet
  "Please confirm your reservation details: " ++ L.title outletDisplay ++
    " outlet in " ++ L.title city ++ ", " ++ reservation ++ ". Contact: " ++
    contact ++ ". Is this correct?"

/-- The source function `generateBookingReference`; `draw` is the result of
`rand.Intn(1000000)`. -/
def generateBookingReference (draw : Nat) : String :=
  sprintf06d draw

/-! ## The per-state handlers

Each handler returns the next state, the response text and the context as
the Go function leaves it. -/

/-- The source function `handleGreetingState`. -/
def handleGreetingState (L : GoStrings) (message : String) (context : Context) :
    ConversationState × String × Context :=
  if strContains (L.toLower message) "book" ||
      strContains (L.toLower message) "reserv" then
    (StateCity, "Great! I can help you with a reservation. Which city would you like to book in - Delhi or Bangalore?", context)
  else if strContains (L.toLower message) "info" ||
      strContains (L.toLower message) "know" ||
      strContains (L.toLower message) "detail" ||
      strContains (L.toLower message) "tell" then
    (StateCity, "I'd be happy to provide information about our outlets. Which city are you interested in - Delhi or Bangalore?", context)
  else if strContains (L.toLower message) "delhi" then
    (StateOutlet, "Great! We have several outlets in Delhi. Which one are you interested in? We have outlets in Connaught Place, Vasant Kunj, and Janakpuri.",
      setKey context "city" (Value.str "delhi"))
  else if strContains (L.toLower message) "bangalore" ||
      strContains (L.toLower message) "bengaluru" then
    (StateOutlet, "Great! We have several outlets in Bangalore. Which one are you interested in? We have outlets in Indiranagar, JP Nagar, Electronic City, and Koramangala.",
      setKey context "city" (Value.str "bangalore"))
  else
    (StateCity, "Welcome to Barbeque Nation! I can help you with bookings or information about our outlets. Which city are you interested in - Delhi or Bangalore?", context)

/-- The source function `handleCityState`. -/
def handleCityState (L : GoStrings) (message : String) (context : Context) :
    ConversationState × String × Context :=
  if strContains (L.toLower message) "delhi" then
    (StateOutlet, "We have several outlets in Delhi. Which one are you interested in? We have outlets in Connaught Place, Vasant Kunj, and Janakpuri.",
      setKey context "city" (Value.str "delhi"))
  else if strContains (L.toLower message) "bangalore" ||
      strContains (L.toLower message) "bengaluru" then
    (StateOutlet, "We have several outlets in Bangalore. Which one are you interested in? We have outlets in Indiranagar, JP Nagar, Electronic City, and Koramangala.",
      setKey context "city" (Value.str "bangalore"))
  else
    (StateCity, "I'm sorry, I didn't catch which city you're interested in. We have outlets in Delhi and Bangalore. Which city would you like to select?", context)

/-- The Delhi block of `handleOutletState`: the outlet and the response of
the first keyword check that matches, `none` when the block falls through. -/
def delhiOutlet (L : GoStrings) (message : String) : Option (String × String) :=
  if strContains (L.toLower message) "connaught" ||
      strContains (L.toLower message) "cp" then
    some ("connaught_place", "Great choice! Connaught Place outlet is very popular. When would you like to make your reservation? Please let me know the date and time.")
  else if strContains (L.toLower message) "vasant" then
    some ("vasant_kunj", "Excellent! Vasant Kunj outlet has a modern ambiance. When would you like to make your reservation? Please let me know the date and time.")
  else if strContains (L.toLower message) "janakpuri" then
    some ("janakpuri", "Perfect! Janakpuri outlet is located in Unity Mall. When would you like to make your reservation? Please let me know the date and time.")
  else none

/-- The Bangalore block of `handleOutletState`. -/
def bangaloreOutlet (L : GoStrings) (message : String) : Option (String × String) :=
  if strContains (L.toLower message) "indiranagar" then
    some ("indiranagar", "Great choice! Indiranagar outlet is one of our most popular. When would you like to make your reservation? Please let me know the date and time.")
  else if strContains (L.toLower message) "jp" ||
      strContains (L.toLower message) "jayanagar" then
    some ("jp_nagar", "Excellent! JP Nagar outlet is located on the 3rd floor. When would you like to make your reservation? Please let me know the date and time.")
  else if strContains (L.toLower message) "electronic" then
    some ("electronic_city", "Perfect! Electronic City outlet is convenient for IT professionals. When would you like to make your reservation? Please let me know the date and time.")
  else if strContains (L.toLower message) "koramangala" then
    some ("koramangala", "Great choice! Koramangala outlet is very popular. When would you like to make your reservation? Please let me know the date and time.")
  else none

/-- The source function `handleOutletState`. -/
def handleOutletState (L : GoStrings) (message : String) (context : Context) :
    ConversationState × String × Context :=
  let city := getString context "city"
  match (if city = "delhi" then delhiOutlet L message else none) with
  | some (outlet, response) =>
    (StateReservation, response, setKey context "outlet" (Value.str outlet))
  | none =>
    match (if city = "bangalore" then bangaloreOutlet L message else none) with
    | some (outlet, response) =>
      (StateReservation, response, setKey context "outlet" (Value.str outlet))
    | none =>
      if city = "delhi" then
        (StateOutlet, "I'm sorry, I didn't catch which outlet you're interested in. In Delhi, we have outlets in Connaught Place, Vasant Kunj, and Janakpuri. Which one would you like to select?", context)
      else if city = "bangalore" then
        (StateOutlet, "I'm sorry, I didn't catch which outlet you're interested in. In Bangalore, we have outlets in Indiranagar, JP Nagar, Electronic City, and Koramangala. Which one would you like to select?", context)
      else
        (StateCity, "Let's start by selecting a city. We have outlets in Delhi and Bangalore. Which city would you prefer?", context)

/-- The date signal `hasDate` of `handleReservationState`. -/
def hasDate (L : GoStrings) (message : String) : Bool :=
  strContains (L.toLower message) "today" ||
  strContains (L.toLower message) "tomorrow" ||
  strContains (L.toLower message) "monday" ||
  strContains (L.toLower message) "tuesday" ||
  strContains (L.toLower message) "wednesday" ||
  strContains (L.toLower message) "thursday" ||
  strContains (L.toLower message) "friday" ||
  strContains (L.toLower message) "saturday" ||
  strContains (L.toLower message) "sunday"

/-- The time signal `hasTime` of `handleReservationState`. -/
def hasTime (L : GoStrings) (message : String) : Bool :=
  strContains message ":" ||
  strContains (L.toLower message) "am" ||
  strContains (L.toLower message) "pm" ||
  strContains (L.toLower message) "noon" ||
  strContains (L.toLower message) "night" ||
  strContains (L.toLower message) "evening" ||
  strContains (L.toLower message) "lunch" ||
  strContains (L.toLower message) "dinner"

/-- The numeric signal `hasNumber` of `handleReservationState`. -/
def hasNumber (message : String) : Bool :=
  strContains message "1" || strContains message "2" || strContains message "3" ||
  strContains message "4" || strContains message "5" || strContains message "6" ||
  strContains message "7" || strContains message "8" || strContains message "9"

/-- The source function `handleReservationState`.  The assignment to
`reservation_text` precedes the test of the two signals. -/
def handleReservationState (L : GoStrings) (message : String) (context : Context) :
    ConversationState × String × Context :=
  let context1 := setKey context "reservation_text" (Value.str message)
  if hasDate L message && hasTime L message then
    if hasNumber message then
      (StateContact, "Great! Could you please provide your contact number so we can confirm your reservation?",
        setKey context1 "party_size" (Value.int (extractNumber L message)))
    else
      (StateContact, "How many people will be dining? Please provide your contact number as well so we can confirm your reservation.", context1)
  else
    (StateReservation, "I need both a date and time for your reservation. For example, 'tomorrow at 7:30 PM' or 'Friday at noon'. When would you like to visit?", context1)

/-- The source function `handleContactState`. -/
def handleContactState (L : GoStrings) (message : String) (context : Context) :
    ConversationState × String × Context :=
  if containsPhoneNumber message then
    let context1 := setKey context "contact" (Value.str message)
    (StateConfirmation, formatConfirmationMessage L context1, context1)
  else
    (StateContact, "I need your contact number to confirm the reservation. Please provide a valid phone number.", context)

/-- The source function `handleConfirmationState`; `draw` is the number that
`rand.Intn(1000000)` returns inside `generateBookingReference`.  The response
reads `booking_reference` back from the context it has just written. -/
def handleConfirmationState (L : GoStrings) (message : String) (context : Context)
    (draw : Nat) : ConversationState × String × Context × Bool :=
  if strContains (L.toLower message) "yes" ||
      strContains (L.toLower message) "confirm" ||
      strContains (L.toLower message) "correct" ||
      strContains (L.toLower message) "right" then
    let context1 := setKey context "booking_confirmed" (Value.bool true)
    let context2 := setKey context1 "booking_reference"
      (Value.str ("BBQ" ++ generateBookingReference draw))
    (StateEnd, "Your reservation has been confirmed! Your booking reference is " ++
      getString context2 "booking_reference" ++
      ". We look forward to serving you. Is there anything else I can help you with?",
      context2, true)
  else if strContains (L.toLower message) "no" ||
      strContains (L.toLower message) "change" ||
      strContains (L.toLower message) "wrong" ||
      strContains (L.toLower message) "incorrect" then
    (StateCity, "I'll help you update your reservation. Let's start over. Which city would you like to book in - Delhi or Bangalore?", context, false)
  else
    (StateConfirmation, "I didn't catch that. Could you please confirm if the reservation details are correct? " ++
      formatConfirmationMessage L context, context, false)

/-! ## The transition -/

/-- The source function `stateFlowHandler` after the request has been
decoded: the dispatch on the current state and the answer it sends.  An
empty `currentState` is replaced by `StateGreeting`; a state name outside
the seven takes the `default` branch of the `switch`. -/
def stateFlowHandler (L : GoStrings) (reqCurrentState : String) (message : String)
    (context : Context) (draw : Nat) : StateFlowResponse :=
  let currentState : ConversationState :=
    if reqCurrentState = "" then StateGreeting else reqCurrentState
  if currentState = StateGreeting then
    let r := handleGreetingState L message context
    { nextState := r.1, response := r.2.1, context := r.2.2, finished := false }
  else if currentState = StateCity then
    let r := handleCityState L message context
    { nextState := r.1, response := r.2.1, context := r.2.2, finished := false }
  else if currentState = StateOutlet then
    let r := handleOutletState L message context
    { nextState := r.1, response := r.2.1, context := r.2.2, finished := false }
  else if currentState = StateReservation then
    let r := handleReservationState L message context
    { nextState := r.1, response := r.2.1, context := r.2.2, finished := false }
  else if currentState = StateContact then
    let r := handleContactState L message context
    { nextState := r.1, response := r.2.1, context := r.2.2, finished := false }
  else if currentState = StateConfirmation then
    let r := handleConfirmationState L message context draw
    { nextState := r.1, response := r.2.1, context := r.2.2.1, finished := r.2.2.2 }
  else if currentState = StateEnd then
    { nextState := StateEnd,
      response := "Thank you for booking with Barbeque Nation. We look forward to serving you. Is there anything else I can help you with?",
      context := context, finished := true }
  else
    { nextState := StateGreeting,
      response := "Welcome to Barbeque Nation. How may I assist you today?",
      context := context, finished := false }

/-! ## Specification-level definitions

These follow the wording of the specification and are compared with the
functions above. -/

/-- The six decimal digits of `n`, most significant first: `n` in decimal,
left-padded with zeros to width six (the specification of `%06d`). -/
def zeroPadded6 (n : Nat) : String :=
  String.mk [digitChar (n / 100000 % 10), digitChar (n / 10000 % 10),
    digitChar (n / 1000 % 10), digitChar (n / 100 % 10), digitChar (n / 10 % 10),
    digitChar (n % 10)]

/-- The number of ASCII digit characters `'0'..'9'` of a message, wherever
they stand (the specification of the phone-number signal). -/
def asciiDigitCount (text : String) : Nat :=
  text.data.countP (fun c => decide ('0' ≤ c ∧ c ≤ '9'))

/-! ## Conversations -/

/-- A conversation: the answers to a sequence of turns (message and random
draw), each turn being fed the next state and the context of the previous
answer. -/
def transcript (L : GoStrings) :
    ConversationState × Context → List (String × Nat) → List StateFlowResponse
  | _, [] => []
  | sc, m :: ms =>
    stateFlowHandler L sc.1 m.1 sc.2 m.2 ::
      transcript L ((stateFlowHandler L sc.1 m.1 sc.2 m.2).nextState,
        (stateFlowHandler L sc.1 m.1 sc.2 m.2).context) ms

/-- The state and the context a conversation ends with. -/
def converse (L : GoStrings) :
    ConversationState × Context → List (String × Nat) → ConversationState × Context
  | sc, [] => sc
  | sc, m :: ms =>
    converse L ((stateFlowHandler L sc.1 m.1 sc.2 m.2).nextState,
      (stateFlowHandler L sc.1 m.1 sc.2 m.2).context) ms

/-! ## Further specification-level definitions -/

/-- The value of a number word `one` .. `ten`, `none` for any other string. -/
def numberWord (lw : String) : Option Int :=
  if lw = "one" then some 1
  else if lw = "two" then some 2
  else if lw = "three" then some 3
  else if lw = "four" then some 4
  else if lw = "five" then some 5
  else if lw = "six" then some 6
  else if lw = "seven" then some 7
  else if lw = "eight" then some 8
  else if lw = "nine" then some 9
  else if lw = "ten" then some 10
  else none

/-- What one whitespace-separated token contributes once the punctuation
`,.:;!?` is stripped from both ends: its value as an integer literal, else
its value as a number word (lower-cased), else nothing. -/
def tokenValue (L : GoStrings) (word : List Char) : Option Int :=
  match atoi (trimCutset word) with
  | some v => some v
  | none => numberWord (L.toLower (String.mk (trimCutset word)))

/-- The two-pass reading of `extractNumber`: the first token that parses as an
integer wins over every number word; number words are consulted only when no
token parses; the default is 2. -/
def extractNumberTwoPass (L : GoStrings) (text : String) : Int :=
  match (fields text.data).findSome? (fun w => atoi (trimCutset w)) with
  | some v => v
  | none =>
    match (fields text.data).findSome?
        (fun w => numberWord (L.toLower (String.mk (trimCutset w)))) with
    | some v => v
    | none => 2

/-- The seven context keys that the handlers write. -/
def slotKeys : List String :=
  ["city", "outlet", "reservation_text", "party_size", "contact", "booking_confirmed",
    "booking_reference"]

/-- The words of the date signal: `today`, `tomorrow` and the weekday names. -/
def dateKeywords : List String :=
  ["today", "tomorrow", "monday", "tuesday", "wednesday", "thursday", "friday",
    "saturday", "sunday"]

/-- The words of the time signal (the colon is tested on the raw message). -/
def timeKeywords : List String :=
  ["am", "pm", "noon", "night", "evening", "lunch", "dinner"]

/-- Whether the raw message contains one of the digits 1 to 9. -/
def hasDigitOneToNine (message : String) : Bool :=
  message.data.any (fun c => decide (c ∈ ['1', '2', '3', '4', '5', '6', '7', '8', '9']))

/-- The outlets of Delhi in the catalog. -/
def delhiOutlets : List String :=
  ["connaught_place", "vasant_kunj", "janakpuri"]

/-- The outlets of Bangalore in the catalog. -/
def bangaloreOutlets : List String :=
  ["indiranagar", "jp_nagar", "electronic_city", "koramangala"]

/-- The catalog: the outlets of a city, none for an unknown city. -/
def outletsOf (city : String) : List String :=
  if city = "delhi" then delhiOutlets
  else if city = "bangalore" then bangaloreOutlets
  else []

/-- The scoping property of a context: if it holds an outlet, it holds a city
and the outlet is one of that city's outlets in the catalog (so the city is
`delhi` or `bangalore`). -/
def outletScoped (context : Context) : Bool :=
  match context "outlet" with
  | none => true
  | some (Value.str outlet) =>
    (match context "city" with
     | some (Value.str city) => decide (outlet ∈ outletsOf city)
     | _ => false)
  | some _ => false

/-- The weaker property: if the context holds an outlet, it holds a city that
is `delhi` or `bangalore`, and the outlet is one of the seven outlets of the
catalog, of either city. -/
def outletKnown (context : Context) : Bool :=
  match context "outlet" with
  | none => true
  | some (Value.str outlet) =>
    (match context "city" with
     | some (Value.str city) =>
       decide (city = "delhi" ∨ city = "bangalore") &&
         decide (outlet ∈ delhiOutlets ++ bangaloreOutlets)
     | _ => false)
  | some _ => false

/-- Whether no turn of the conversation is a restart, that is a turn taken in
the Confirmation state and answered with next state `"city"`. -/
def restartFree (L : GoStrings) :
    ConversationState × Context → List (String × Nat) → Bool
  | _, [] => true
  | sc, m :: ms =>
    !(decide (sc.1 = "confirmation") &&
        decide ((stateFlowHandler L sc.1 m.1 sc.2 m.2).nextState = "city")) &&
      restartFree L ((stateFlowHandler L sc.1 m.1 sc.2 m.2).nextState,
        (stateFlowHandler L sc.1 m.1 sc.2 m.2).context) ms

/-! # Theorems -/

/-! ## Dispatch lemmas -/

theorem stateFlowHandler_greeting (L : GoStrings) (message : String) (context : Context)
    (draw : Nat) :
    stateFlowHandler L "greeting" message context draw =
      { nextState := (handleGreetingState L message context).1,
        response := (handleGreetingState L message context).2.1,
        context := (handleGreetingState L message context).2.2,
        finished := false } := by
  simp [stateFlowHandler, StateGreeting]

theorem stateFlowHandler_empty (L : GoStrings) (message : String) (context : Context)
    (draw : Nat) :
    stateFlowHandler L "" message context draw =
      stateFlowHandler L "greeting" message context draw := by
  simp [stateFlowHandler, StateGreeting]

theorem stateFlowHandler_city (L : GoStrings) (message : String) (context : Context)
    (draw : Nat) :
    stateFlowHandler L "city" message context draw =
      { nextState := (handleCityState L message context).1,
        response := (handleCityState L message context).2.1,
        context := (handleCityState L message context).2.2,
        finished := false } := by
  simp [stateFlowHandler, StateGreeting, StateCity]

theorem stateFlowHandler_outlet (L : GoStrings) (message : String) (context : Context)
    (draw : Nat) :
    stateFlowHandler L "outlet" message context draw =
      { nextState := (handleOutletState L message context).1,
        response := (handleOutletState L message context).2.1,
        context := (handleOutletState L message context).2.2,
        finished := false } := by
  simp [stateFlowHandler, StateGreeting, StateCity, StateOutlet]

theorem stateFlowHandler_reservation (L : GoStrings) (message : String)
    (context : Context) (draw : Nat) :
    stateFlowHandler L "reservation" message context draw =
      { nextState := (handleReservationState L message context).1,
        response := (handleReservationState L message context).2.1,
        context := (handleReservationState L message context).2.2,
        finished := false } := by
  simp [stateFlowHandler, StateGreeting, StateCity, StateOutlet, StateReservation]

theorem stateFlowHandler_contact (L : GoStrings) (message : String) (context : Context)
    (draw : Nat) :
    stateFlowHandler L "contact" message context draw =
      { nextState := (handleContactState L message context).1,
        response := (handleContactState L message context).2.1,
        context := (handleContactState L message context).2.2,
        finished := false } := by
  simp [stateFlowHandler, StateGreeting, StateCity, StateOutlet, StateReservation,
    StateContact]

theorem stateFlowHandler_confirmation (L : GoStrings) (message : String)
    (context : Context) (draw : Nat) :
    stateFlowHandler L "confirmation" message context draw =
      { nextState := (handleConfirmationState L message context draw).1,
        response := (handleConfirmationState L message context draw).2.1,
        context := (handleConfirmationState L message context draw).2.2.1,
        finished := (handleConfirmationState L message context draw).2.2.2 } := by
  simp [stateFlowHandler, StateGreeting, StateCity, StateOutlet, StateReservation,
    StateContact, StateConfirmation]

theorem stateFlowHandler_end (L : GoStrings) (message : String) (context : Context)
    (draw : Nat) :
    stateFlowHandler L "end" message context draw =
      { nextState := "end",
        response := "Thank you for booking with Barbeque Nation. We look forward to serving you. Is there anything else I can help you with?",
        context := context, finished := true } := by
  simp [stateFlowHandler, StateGreeting, StateCity, StateOutlet, StateReservation,
    StateContact, StateConfirmation, StateEnd]

theorem stateFlowHandler_default (L : GoStrings) (cs message : String) (context : Context)
    (draw : Nat) (h0 : cs ≠ "") (h : cs ∉ definedStates) :
    stateFlowHandler L cs message context draw =
      { nextState := "greeting",
        response := "Welcome to Barbeque Nation. How may I assist you today?",
        context := context, finished := false } := by
  simp only [definedStates, List.mem_cons, List.mem_singleton, not_or, List.not_mem_nil,
    not_false_eq_true, and_true] at h
  obtain ⟨h1, h2, h3, h4, h5, h6, h7⟩ := h
  simp only [stateFlowHandler, h0, h1, h2, h3, h4, h5, h6, h7, if_false]
  rfl

/-! ## Next states of the handlers -/

theorem handleGreetingState_state (L : GoStrings) (message : String) (context : Context) :
    (handleGreetingState L message context).1 = "city" ∨
      (handleGreetingState L message context).1 = "outlet" := by
  unfold handleGreetingState
  split_ifs <;> simp [StateCity, StateOutlet]

theorem handleCityState_state (L : GoStrings) (message : String) (context : Context) :
    (handleCityState L message context).1 = "city" ∨
      (handleCityState L message context).1 = "outlet" := by
  unfold handleCityState
  split_ifs <;> simp [StateCity, StateOutlet]

theorem handleOutletState_state (L : GoStrings) (message : String) (context : Context) :
    (handleOutletState L message context).1 = "city" ∨
      (handleOutletState L message context).1 = "outlet" ∨
      (handleOutletState L message context).1 = "reservation" := by
  unfold handleOutletState
  simp only
  split
  · simp [StateReservation]
  · split
    · simp [StateReservation]
    · split_ifs <;> simp [StateCity, StateOutlet]

theorem handleReservationState_state (L : GoStrings) (message : String)
    (context : Context) :
    (handleReservationState L message context).1 = "reservation" ∨
      (handleReservationState L message context).1 = "contact" := by
  unfold handleReservationState
  simp only
  split_ifs <;> simp [StateReservation, StateContact]

theorem handleContactState_state (L : GoStrings) (message : String) (context : Context) :
    (handleContactState L message context).1 = "contact" ∨
      (handleContactState L message context).1 = "confirmation" := by
  unfold handleContactState
  split_ifs <;> simp [StateConfirmation, StateContact]

theorem handleConfirmationState_state (L : GoStrings) (message : String)
    (context : Context) (draw : Nat) :
    (handleConfirmationState L message context draw).1 = "end" ∨
      (handleConfirmationState L message context draw).1 = "city" ∨
      (handleConfirmationState L message context draw).1 = "confirmation" := by
  unfold handleConfirmationState
  split_ifs <;> simp [StateConfirmation, StateCity, StateEnd]

/-! ## Decimal formatting -/

theorem decimalAux_fuel : ∀ (f1 f2 n : Nat) (acc : List Char), n < f1 → n < f2 →
    decimalAux f1 n acc = decimalAux f2 n acc := by
  intro f1
  induction f1 with
  | zero => intro f2 n acc h; omega
  | succ f1 ih =>
    intro f2 n acc h1 h2
    cases f2 with
    | zero => omega
    | succ f2 =>
      simp only [decimalAux]
      by_cases h : n / 10 = 0
      · simp [h]
      · simp only [h, if_false]
        apply ih <;> omega

theorem decimalAux_step (m : Nat) (acc : List Char) :
    decimalAux (m + 1) m acc =
      if m < 10 then digitChar m :: acc
      else decimalAux (m / 10 + 1) (m / 10) (digitChar (m % 10) :: acc) := by
  rw [decimalAux]
  by_cases h : m < 10
  · have h1 : m / 10 = 0 := by omega
    have h2 : m % 10 = m := by omega
    simp [h, h1, h2]
  · have h1 : ¬ m / 10 = 0 := by omega
    rw [if_neg h1, if_neg h]
    apply decimalAux_fuel <;> omega

theorem digitChar_zero : digitChar 0 = '0' := rfl

theorem sprintf06d_eq_zeroPadded6 (n : Nat) (h : n < 1000000) :
    sprintf06d n = zeroPadded6 n := by
  unfold sprintf06d zeroPadded6 decimal
  congr 1
  rw [decimalAux_step]
  by_cases h1 : n < 10
  · have e5 : n / 100000 % 10 = 0 := by omega
    have e4 : n / 10000 % 10 = 0 := by omega
    have e3 : n / 1000 % 10 = 0 := by omega
    have e2 : n / 100 % 10 = 0 := by omega
    have e1 : n / 10 % 10 = 0 := by omega
    have e0 : n % 10 = n := by omega
    rw [if_pos h1]
    simp [e5, e4, e3, e2, e1, e0, digitChar_zero, List.replicate]
  rw [if_neg h1, decimalAux_step]
  by_cases h2 : n / 10 < 10
  · have e5 : n / 100000 % 10 = 0 := by omega
    have e4 : n / 10000 % 10 = 0 := by omega
    have e3 : n / 1000 % 10 = 0 := by omega
    have e2 : n / 100 % 10 = 0 := by omega
    have e1 : n / 10 % 10 = n / 10 := by omega
    rw [if_pos h2]
    simp [e5, e4, e3, e2, e1, digitChar_zero, List.replicate]
  rw [if_neg h2, decimalAux_step]
  have d2 : n / 10 / 10 = n / 100 := by omega
  by_cases h3 : n / 10 / 10 < 10
  · have e5 : n / 100000 % 10 = 0 := by omega
    have e4 : n / 10000 % 10 = 0 := by omega
    have e3 : n / 1000 % 10 = 0 := by omega
    have e2 : n / 100 % 10 = n / 100 := by omega
    rw [if_pos h3]
    simp [Nat.div_div_eq_div_mul, e5, e4, e3, e2, digitChar_zero, List.replicate]
  rw [if_neg h3, decimalAux_step]
  have d3 : n / 10 / 10 / 10 = n / 1000 := by omega
  by_cases h4 : n / 10 / 10 / 10 < 10
  · have e5 : n / 100000 % 10 = 0 := by omega
    have e4 : n / 10000 % 10 = 0 := by omega
    have e3 : n / 1000 % 10 = n / 1000 := by omega
    rw [if_pos h4]
    simp [Nat.div_div_eq_div_mul, e5, e4, e3, digitChar_zero, List.replicate]
  rw [if_neg h4, decimalAux_step]
  have d4 : n / 10 / 10 / 10 / 10 = n / 10000 := by omega
  by_cases h5 : n / 10 / 10 / 10 / 10 < 10
  · have e5 : n / 100000 % 10 = 0 := by omega
    have e4 : n / 10000 % 10 = n / 10000 := by omega
    rw [if_pos h5]
    simp [Nat.div_div_eq_div_mul, e5, e4, digitChar_zero, List.replicate]
  rw [if_neg h5, decimalAux_step]
  have d5 : n / 10 / 10 / 10 / 10 / 10 = n / 100000 := by omega
  have h6 : n / 10 / 10 / 10 / 10 / 10 < 10 := by omega
  have e5 : n / 100000 % 10 = n / 100000 := by omega
  rw [if_pos h6]
  simp [Nat.div_div_eq_div_mul, e5, List.replicate]

/-! ## Substring test -/

theorem containsChars_iff_occurs (s sub : List Char) :
    containsChars s sub = true ↔ sub <:+: s := by
  induction s with
  | nil => simp [containsChars]
  | cons c cs ih =>
    rw [containsChars, Bool.or_eq_true, ih, List.infix_cons_iff, List.isPrefixOf_iff_prefix]

theorem strContains_middle (a b c : String) : strContains (a ++ b ++ c) b = true := by
  unfold strContains
  rw [containsChars_iff_occurs]
  simp only [String.data_append]
  exact List.infix_append a.data b.data c.data

/-- Every string that contains `"incorrect"` contains `"correct"`. -/
theorem strContains_correct_of_incorrect (s : String)
    (h : strContains s "incorrect" = true) : strContains s "correct" = true := by
  unfold strContains at h ⊢
  rw [containsChars_iff_occurs] at h ⊢
  exact List.IsInfix.trans ⟨['i', 'n'], [], rfl⟩ h

/-! ## Confirmation -/

theorem handleConfirmationState_positive (L : GoStrings) (message : String)
    (context : Context) (draw : Nat)
    (h : strContains (L.toLower message) "yes" = true ∨
      strContains (L.toLower message) "confirm" = true ∨
      strContains (L.toLower message) "correct" = true ∨
      strContains (L.toLower message) "right" = true) :
    handleConfirmationState L message context draw =
      (StateEnd, "Your reservation has been confirmed! Your booking reference is " ++
        ("BBQ" ++ generateBookingReference draw) ++
        ". We look forward to serving you. Is there anything else I can help you with?",
        setKey (setKey context "booking_confirmed" (Value.bool true)) "booking_reference"
          (Value.str ("BBQ" ++ generateBookingReference draw)), true) := by
  have h2 : (strContains (L.toLower message) "yes" ||
      strContains (L.toLower message) "confirm" ||
      strContains (L.toLower message) "correct" ||
      strContains (L.toLower message) "right") = true := by
    simpa [or_assoc] using h
  unfold handleConfirmationState
  rw [if_pos h2]
  simp [getString, setKey]

theorem handleConfirmationState_end (L : GoStrings) (message : String)
    (context : Context) (draw : Nat)
    (h : (handleConfirmationState L message context draw).1 = "end") :
    strContains (L.toLower message) "yes" = true ∨
      strContains (L.toLower message) "confirm" = true ∨
      strContains (L.toLower message) "correct" = true ∨
      strContains (L.toLower message) "right" = true := by
  revert h
  unfold handleConfirmationState
  split_ifs with h1 h2
  · intro _
    simpa [or_assoc] using h1
  · simp [StateCity]
  · simp [StateConfirmation]

/-! ## Claims about the dispatch -/

/-- C1 (as stated, refuted): the state name `"foo"` is neither empty nor one of
the seven defined names, yet on the message `"hi"` and the empty context the
transition answers next state `"greeting"`, while from `"greeting"` it answers
next state `"city"`; the two answers differ. -/
theorem unrecognized_state_differs_from_greeting :
    "foo" ∉ definedStates ∧
    (stateFlowHandler asciiStrings "foo" "hi" emptyContext 0).nextState = "greeting" ∧
    (stateFlowHandler asciiStrings "greeting" "hi" emptyContext 0).nextState = "city" ∧
    stateFlowHandler asciiStrings "foo" "hi" emptyContext 0 ≠
      stateFlowHandler asciiStrings "greeting" "hi" emptyContext 0 := by
  refine ⟨by decide, by decide, by decide, ?_⟩
  intro h
  have h2 := congrArg StateFlowResponse.nextState h
  revert h2
  decide

/-- C1 (amended): for a current state that is not one of the seven defined
names, the empty string is answered exactly as `"greeting"` is, and every
non-empty name is answered by the `default` branch: next state `"greeting"`,
the fixed welcome text, the context unchanged and `finished = false`. -/
theorem unrecognized_state_transition (L : GoStrings) (cs message : String)
    (context : Context) (draw : Nat) (h : cs ∉ definedStates) :
    (cs = "" → stateFlowHandler L cs message context draw =
      stateFlowHandler L "greeting" message context draw) ∧
    (cs ≠ "" → stateFlowHandler L cs message context draw =
      { nextState := "greeting",
        response := "Welcome to Barbeque Nation. How may I assist you today?",
        context := context, finished := false }) := by
  constructor
  · intro h0
    subst h0
    exact stateFlowHandler_empty L message context draw
  · intro h0
    exact stateFlowHandler_default L cs message context draw h0 h

/-- Witness of `unrecognized_state_transition` at the state name `"foo"`. -/
theorem unrecognized_state_transition_witness :
    "foo" ∉ definedStates ∧
    (("foo" = "" → stateFlowHandler asciiStrings "foo" "hi" emptyContext 0 =
      stateFlowHandler asciiStrings "greeting" "hi" emptyContext 0) ∧
    ("foo" ≠ "" → stateFlowHandler asciiStrings "foo" "hi" emptyContext 0 =
      { nextState := "greeting",
        response := "Welcome to Barbeque Nation. How may I assist you today?",
        context := emptyContext, finished := false })) :=
  ⟨by decide, unrecognized_state_transition asciiStrings "foo" "hi" emptyContext 0 (by decide)⟩

/-- C3: the End state is absorbing; whatever the message and the context, the
transition from `"end"` answers next state `"end"`, the fixed closing text,
`finished = true`, and the context it was given. -/
theorem end_state_absorbing (L : GoStrings) (message : String) (context : Context)
    (draw : Nat) :
    stateFlowHandler L "end" message context draw =
      { nextState := "end",
        response := "Thank you for booking with Barbeque Nation. We look forward to serving you. Is there anything else I can help you with?",
        context := context, finished := true } :=
  stateFlowHandler_end L message context draw

/-- C4: for every current-state string, recognised or not, every message and
every context, the next state is one of the seven defined states. -/
theorem next_state_defined (L : GoStrings) (cs message : String) (context : Context)
    (draw : Nat) :
    (stateFlowHandler L cs message context draw).nextState ∈
      ["greeting", "city", "outlet", "reservation", "contact", "confirmation", "end"] := by
  by_cases h : cs ∈ definedStates
  · simp only [definedStates, List.mem_cons, List.mem_singleton, List.not_mem_nil,
      or_false, StateGreeting, StateCity, StateOutlet, StateReservation, StateContact,
      StateConfirmation, StateEnd] at h
    rcases h with h | h | h | h | h | h | h <;> subst h
    · rw [stateFlowHandler_greeting]
      rcases handleGreetingState_state L message context with e | e <;> simp [e]
    · rw [stateFlowHandler_city]
      rcases handleCityState_state L message context with e | e <;> simp [e]
    · rw [stateFlowHandler_outlet]
      rcases handleOutletState_state L message context with e | e | e <;> simp [e]
    · rw [stateFlowHandler_reservation]
      rcases handleReservationState_state L message context with e | e <;> simp [e]
    · rw [stateFlowHandler_contact]
      rcases handleContactState_state L message context with e | e <;> simp [e]
    · rw [stateFlowHandler_confirmation]
      rcases handleConfirmationState_state L message context draw with e | e | e <;>
        simp [e]
    · rw [stateFlowHandler_end]
      simp
  · by_cases h0 : cs = ""
    · subst h0
      rw [stateFlowHandler_empty, stateFlowHandler_greeting]
      rcases handleGreetingState_state L message context with e | e <;> simp [e]
    · rw [stateFlowHandler_default L cs message context draw h0 h]
      simp

/-! ## Re-prompts -/

/-- C2 (the code at the failing input): in the Reservation state the message
`"hello"` carries no date signal and the transition re-prompts (next state
`"reservation"`), yet the returned context holds `reservation_text = "hello"`,
a key the empty input context does not have: the re-prompt modifies the
context. -/
theorem reservation_reprompt_writes_context :
    hasDate asciiStrings "hello" = false ∧
    (stateFlowHandler asciiStrings "reservation" "hello" emptyContext 0).nextState =
      "reservation" ∧
    emptyContext "reservation_text" = none ∧
    (stateFlowHandler asciiStrings "reservation" "hello" emptyContext 0).context
      "reservation_text" = some (Value.str "hello") ∧
    (stateFlowHandler asciiStrings "reservation" "hello" emptyContext 0).context ≠
      emptyContext := by
  refine ⟨by decide, by decide, rfl, rfl, ?_⟩
  intro h
  have h2 := congrFun h "reservation_text"
  have h3 : (stateFlowHandler asciiStrings "reservation" "hello" emptyContext 0).context
      "reservation_text" = some (Value.str "hello") := rfl
  rw [h3] at h2
  exact Option.noConfusion h2

/-- Re-prompts state by state: in the City, Outlet, Contact and Confirmation
states a re-prompt (next state equal to the current state) returns the input
context unchanged; a re-prompt in the Reservation state has the date signal
or the time signal missing, and returns the input context with
`reservation_text` set to the message and every other key unchanged. -/
theorem reprompt_context (L : GoStrings) (cs message : String) (context : Context)
    (draw : Nat)
    (hcs : cs ∈ ["city", "outlet", "reservation", "contact", "confirmation"])
    (hre : (stateFlowHandler L cs message context draw).nextState = cs) :
    (cs ≠ "reservation" →
      (stateFlowHandler L cs message context draw).context = context) ∧
    (cs = "reservation" →
      (hasDate L message && hasTime L message) = false ∧
      (stateFlowHandler L cs message context draw).context =
        setKey context "reservation_text" (Value.str message) ∧
      ∀ k, k ≠ "reservation_text" →
        (stateFlowHandler L cs message context draw).context k = context k) := by
  simp only [List.mem_cons, List.mem_singleton, List.not_mem_nil, or_false] at hcs
  rcases hcs with h | h | h | h | h <;> subst h
  · refine ⟨fun _ => ?_, fun h => absurd h (by decide)⟩
    rw [stateFlowHandler_city] at hre ⊢
    revert hre
    unfold handleCityState
    split_ifs <;> simp [StateOutlet, StateCity]
  · refine ⟨fun _ => ?_, fun h => absurd h (by decide)⟩
    rw [stateFlowHandler_outlet] at hre ⊢
    revert hre
    unfold handleOutletState
    simp only
    split
    · simp [StateReservation]
    · split
      · simp [StateReservation]
      · split_ifs <;> simp [StateOutlet, StateCity]
  · refine ⟨fun h => absurd rfl h, fun _ => ?_⟩
    rw [stateFlowHandler_reservation] at hre ⊢
    revert hre
    unfold handleReservationState
    simp only
    split_ifs with h1 h2
    · simp [StateContact]
    · simp [StateContact]
    · intro _
      refine ⟨by simpa using h1, rfl, ?_⟩
      intro k hk
      simp [setKey, hk]
  · refine ⟨fun _ => ?_, fun h => absurd h (by decide)⟩
    rw [stateFlowHandler_contact] at hre ⊢
    revert hre
    unfold handleContactState
    split_ifs <;> simp [StateConfirmation, StateContact]
  · refine ⟨fun _ => ?_, fun h => absurd h (by decide)⟩
    rw [stateFlowHandler_confirmation] at hre ⊢
    revert hre
    unfold handleConfirmationState
    split_ifs <;> simp [StateConfirmation, StateCity, StateEnd]

/-- Witness of `reprompt_context`: the Reservation state on the message
`"hello"` and the empty context. -/
theorem reprompt_context_witness :
    (stateFlowHandler asciiStrings "reservation" "hello" emptyContext 0).nextState =
      "reservation" ∧
    (hasDate asciiStrings "hello" && hasTime asciiStrings "hello") = false ∧
    (stateFlowHandler asciiStrings "reservation" "hello" emptyContext 0).context =
      setKey emptyContext "reservation_text" (Value.str "hello") :=
  ⟨by decide,
   ((reprompt_context asciiStrings "reservation" "hello" emptyContext 0 (by decide)
      (by decide)).2 rfl).1,
   ((reprompt_context asciiStrings "reservation" "hello" emptyContext 0 (by decide)
      (by decide)).2 rfl).2.1⟩

/-- The Reservation state re-prompts exactly when the date signal or the time
signal is missing. -/
theorem reservation_reprompt_iff (L : GoStrings) (message : String) (context : Context)
    (draw : Nat) :
    (stateFlowHandler L "reservation" message context draw).nextState = "reservation" ↔
      (hasDate L message && hasTime L message) = false := by
  rw [stateFlowHandler_reservation]
  unfold handleReservationState
  cases hasDate L message <;> cases hasTime L message <;> cases hasNumber message <;>
    simp [StateContact, StateReservation]

/-! ## Confirmation answers -/

/-- C5: on a message whose lower-cased form contains `yes`, `confirm`,
`correct` or `right`, with the random draw `n < 1000000`, the transition from
Confirmation answers next state `"end"` with `finished = true`, stores
`booking_confirmed = true` and `booking_reference = "BBQ"` followed by `n`
zero-padded to six digits, keeps every other key of the context, and the
response text contains that booking reference. -/
theorem confirmation_positive (L : GoStrings) (message : String) (context : Context)
    (n : Nat) (hn : n < 1000000)
    (h : strContains (L.toLower message) "yes" = true ∨
      strContains (L.toLower message) "confirm" = true ∨
      strContains (L.toLower message) "correct" = true ∨
      strContains (L.toLower message) "right" = true) :
    (stateFlowHandler L "confirmation" message context n).nextState = "end" ∧
    (stateFlowHandler L "confirmation" message context n).finished = true ∧
    (stateFlowHandler L "confirmation" message context n).context "booking_confirmed" =
      some (Value.bool true) ∧
    (stateFlowHandler L "confirmation" message context n).context "booking_reference" =
      some (Value.str ("BBQ" ++ zeroPadded6 n)) ∧
    (∀ k, k ≠ "booking_confirmed" → k ≠ "booking_reference" →
      (stateFlowHandler L "confirmation" message context n).context k = context k) ∧
    (stateFlowHandler L "confirmation" message context n).response =
      "Your reservation has been confirmed! Your booking reference is " ++
        ("BBQ" ++ zeroPadded6 n) ++
        ". We look forward to serving you. Is there anything else I can help you with?" ∧
    strContains (stateFlowHandler L "confirmation" message context n).response
      ("BBQ" ++ zeroPadded6 n) = true := by
  rw [stateFlowHandler_confirmation, handleConfirmationState_positive L message context n h]
  have e : generateBookingReference n = zeroPadded6 n := sprintf06d_eq_zeroPadded6 n hn
  rw [e]
  refine ⟨rfl, rfl, ?_, ?_, ?_, rfl, strContains_middle _ _ _⟩
  · simp [setKey]
  · simp [setKey]
  · intro k h1 h2
    simp [setKey, h1, h2]

/-- Witness of `confirmation_positive`: the message `"yes that's correct"`
with the draw 42. -/
theorem confirmation_positive_witness :
    (stateFlowHandler asciiStrings "confirmation" "yes that's correct" emptyContext
      42).nextState = "end" ∧
    (stateFlowHandler asciiStrings "confirmation" "yes that's correct" emptyContext
      42).context "booking_reference" = some (Value.str ("BBQ" ++ zeroPadded6 42)) ∧
    "BBQ" ++ zeroPadded6 42 = "BBQ000042" :=
  ⟨(confirmation_positive asciiStrings "yes that's correct" emptyContext 42 (by decide)
      (Or.inl (by decide))).1,
   (confirmation_positive asciiStrings "yes that's correct" emptyContext 42 (by decide)
      (Or.inl (by decide))).2.2.2.1,
   by decide⟩

/-- C6 (as stated, refuted): the message `"yes, no changes"` contains `no` and
`change`, yet the transition from Confirmation answers next state `"end"`
with `finished = true` and writes `booking_confirmed` into the context: the
positive keywords are tested first. -/
theorem negative_keyword_after_positive_confirms :
    strContains (asciiStrings.toLower "yes, no changes") "no" = true ∧
    strContains (asciiStrings.toLower "yes, no changes") "change" = true ∧
    (stateFlowHandler asciiStrings "confirmation" "yes, no changes" emptyContext
      7).nextState = "end" ∧
    (stateFlowHandler asciiStrings "confirmation" "yes, no changes" emptyContext
      7).finished = true ∧
    emptyContext "booking_confirmed" = none ∧
    (stateFlowHandler asciiStrings "confirmation" "yes, no changes" emptyContext
      7).context "booking_confirmed" = some (Value.bool true) :=
  ⟨by decide, by decide, by decide, by decide, rfl, rfl⟩

/-- C6 (amended): on a message whose lower-cased form contains `no`, `change`
or `wrong` and none of `yes`, `confirm`, `correct`, `right`, the transition
from Confirmation answers next state `"city"` with `finished = false` and
returns the context unchanged, stale slot keys included. -/
theorem confirmation_negative (L : GoStrings) (message : String) (context : Context)
    (n : Nat)
    (hneg : strContains (L.toLower message) "no" = true ∨
      strContains (L.toLower message) "change" = true ∨
      strContains (L.toLower message) "wrong" = true)
    (hyes : strContains (L.toLower message) "yes" = false)
    (hconfirm : strContains (L.toLower message) "confirm" = false)
    (hcorrect : strContains (L.toLower message) "correct" = false)
    (hright : strContains (L.toLower message) "right" = false) :
    (stateFlowHandler L "confirmation" message context n).nextState = "city" ∧
    (stateFlowHandler L "confirmation" message context n).finished = false ∧
    (stateFlowHandler L "confirmation" message context n).context = context := by
  have h2 : (strContains (L.toLower message) "no" ||
      strContains (L.toLower message) "change" ||
      strContains (L.toLower message) "wrong" ||
      strContains (L.toLower message) "incorrect") = true := by
    rcases hneg with h | h | h <;> simp [h]
  rw [stateFlowHandler_confirmation]
  unfold handleConfirmationState
  simp only [hyes, hconfirm, hcorrect, hright, Bool.or_self, Bool.false_eq_true, if_false,
    h2, if_true]
  refine ⟨?_, ?_, ?_⟩ <;> first | rfl | trivial

/-- Witness of `confirmation_negative`: the message `"No, change it"` on a
context that already holds a city. -/
theorem confirmation_negative_witness :
    (stateFlowHandler asciiStrings "confirmation" "No, change it"
      (setKey emptyContext "city" (Value.str "delhi")) 0).nextState = "city" ∧
    (stateFlowHandler asciiStrings "confirmation" "No, change it"
      (setKey emptyContext "city" (Value.str "delhi")) 0).finished = false ∧
    (stateFlowHandler asciiStrings "confirmation" "No, change it"
      (setKey emptyContext "city" (Value.str "delhi")) 0).context =
      setKey emptyContext "city" (Value.str "delhi") :=
  confirmation_negative asciiStrings "No, change it"
    (setKey emptyContext "city" (Value.str "delhi")) 0 (Or.inl (by decide)) (by decide)
    (by decide) (by decide) (by decide)

/-- The keyword `incorrect` of the negative branch is shadowed: the message
`"That is incorrect"` contains `correct`, so the positive branch confirms the
booking. -/
theorem incorrect_is_confirmed :
    strContains (asciiStrings.toLower "That is incorrect") "incorrect" = true ∧
    (stateFlowHandler asciiStrings "confirmation" "That is incorrect" emptyContext
      0).nextState = "end" ∧
    (stateFlowHandler asciiStrings "confirmation" "That is incorrect" emptyContext
      0).finished = true :=
  ⟨by decide, by decide, by decide⟩

/-! ## City detection -/

/-- C7 (as stated, refuted): `"Delhi or Bangalore"` contains `bangalore`, yet
the City state stores `city = "delhi"`; `"book a table in Bangalore"` contains
`bangalore`, yet the Greeting state moves to `"city"` and stores no city. -/
theorem bangalore_not_always_stored :
    strContains (asciiStrings.toLower "Delhi or Bangalore") "bangalore" = true ∧
    (stateFlowHandler asciiStrings "city" "Delhi or Bangalore" emptyContext 0).context
      "city" = some (Value.str "delhi") ∧
    strContains (asciiStrings.toLower "book a table in Bangalore") "bangalore" = true ∧
    (stateFlowHandler asciiStrings "greeting" "book a table in Bangalore" emptyContext
      0).nextState = "city" ∧
    (stateFlowHandler asciiStrings "greeting" "book a table in Bangalore" emptyContext
      0).context "city" = none :=
  ⟨by decide, rfl, by decide, by decide, rfl⟩

/-- C7 (amended): on a message whose lower-cased form contains `bangalore` or
`bengaluru` and does not contain `delhi`, the City state yields a context with
`city = "bangalore"`; so does the Greeting state when the lower-cased message
contains none of `book`, `reserv`, `info`, `know`, `detail`, `tell`. -/
theorem bangalore_stored (L : GoStrings) (message : String) (context : Context) (n : Nat)
    (hb : strContains (L.toLower message) "bangalore" = true ∨
      strContains (L.toLower message) "bengaluru" = true)
    (hd : strContains (L.toLower message) "delhi" = false) :
    (stateFlowHandler L "city" message context n).context "city" =
      some (Value.str "bangalore") ∧
    (strContains (L.toLower message) "book" = false ∧
      strContains (L.toLower message) "reserv" = false ∧
      strContains (L.toLower message) "info" = false ∧
      strContains (L.toLower message) "know" = false ∧
      strContains (L.toLower message) "detail" = false ∧
      strContains (L.toLower message) "tell" = false →
      (stateFlowHandler L "greeting" message context n).context "city" =
        some (Value.str "bangalore")) := by
  have h2 : (strContains (L.toLower message) "bangalore" ||
      strContains (L.toLower message) "bengaluru") = true := by
    rcases hb with h | h <;> simp [h]
  constructor
  · rw [stateFlowHandler_city]
    unfold handleCityState
    simp only [hd, Bool.false_eq_true, if_false, h2, if_true]
    simp [setKey]
  · rintro ⟨g1, g2, g3, g4, g5, g6⟩
    rw [stateFlowHandler_greeting]
    unfold handleGreetingState
    simp only [g1, g2, g3, g4, g5, g6, hd, Bool.or_self, Bool.false_eq_true, if_false, h2,
      if_true]
    simp [setKey]

/-- Witness of `bangalore_stored`: the message `"Bengaluru"`. -/
theorem bangalore_stored_witness :
    (stateFlowHandler asciiStrings "city" "Bengaluru" emptyContext 0).context "city" =
      some (Value.str "bangalore") ∧
    (stateFlowHandler asciiStrings "greeting" "Bengaluru" emptyContext 0).context "city" =
      some (Value.str "bangalore") :=
  ⟨(bangalore_stored asciiStrings "Bengaluru" emptyContext 0 (Or.inr (by decide))
      (by decide)).1,
   (bangalore_stored asciiStrings "Bengaluru" emptyContext 0 (Or.inr (by decide))
      (by decide)).2 (by decide)⟩

/-! ## Outlet scoping -/

theorem getString_eq_iff (context : Context) (key s : String) (hs : s ≠ "") :
    getString context key = s ↔ context key = some (Value.str s) := by
  unfold getString
  constructor
  · intro h
    split at h
    · next t e => rw [e, h]
    · exact absurd h.symm hs
  · intro h
    rw [h]

/-- C8: when the context holds no city, or holds under `city` anything other
than the string `"delhi"` or `"bangalore"`, the transition from Outlet never
reaches Reservation: it answers next state `"city"` and returns the context
unchanged, so `outlet` is not set. -/
theorem outlet_requires_city (L : GoStrings) (message : String) (context : Context)
    (n : Nat)
    (h1 : context "city" ≠ some (Value.str "delhi"))
    (h2 : context "city" ≠ some (Value.str "bangalore")) :
    (stateFlowHandler L "outlet" message context n).nextState = "city" ∧
    (stateFlowHandler L "outlet" message context n).nextState ≠ "reservation" ∧
    (stateFlowHandler L "outlet" message context n).context = context ∧
    (stateFlowHandler L "outlet" message context n).context "outlet" = context "outlet" ∧
    (stateFlowHandler L "outlet" message context n).finished = false := by
  have g1 : getString context "city" ≠ "delhi" :=
    fun h => h1 ((getString_eq_iff context "city" "delhi" (by decide)).1 h)
  have g2 : getString context "city" ≠ "bangalore" :=
    fun h => h2 ((getString_eq_iff context "city" "bangalore" (by decide)).1 h)
  rw [stateFlowHandler_outlet]
  unfold handleOutletState
  simp only [g1, g2, if_false]
  refine ⟨?_, ?_, ?_, ?_, ?_⟩ <;> first | rfl | trivial

/-- Witness of `outlet_requires_city`: an outlet name sent with an empty
context. -/
theorem outlet_requires_city_witness :
    emptyContext "city" ≠ some (Value.str "delhi") ∧
    (stateFlowHandler asciiStrings "outlet" "Connaught Place" emptyContext 0).nextState =
      "city" ∧
    (stateFlowHandler asciiStrings "outlet" "Connaught Place" emptyContext 0).context =
      emptyContext :=
  ⟨fun h => Option.noConfusion h,
   (outlet_requires_city asciiStrings "Connaught Place" emptyContext 0
      (fun h => Option.noConfusion h) (fun h => Option.noConfusion h)).1,
   (outlet_requires_city asciiStrings "Connaught Place" emptyContext 0
      (fun h => Option.noConfusion h) (fun h => Option.noConfusion h)).2.2.1⟩

/-! ## Phone-number detection -/

theorem foldl_digit_count (cs : List Char) (k : Nat) :
    cs.foldl (fun digits char => if char ≥ '0' ∧ char ≤ '9' then digits + 1 else digits) k =
      k + cs.countP (fun c => decide ('0' ≤ c ∧ c ≤ '9')) := by
  induction cs generalizing k with
  | nil => simp
  | cons c cs ih =>
    rw [List.foldl_cons, ih, List.countP_cons]
    by_cases h : '0' ≤ c ∧ c ≤ '9'
    · simp [h]
      omega
    · simp [h]

theorem containsPhoneNumber_iff (text : String) :
    containsPhoneNumber text = true ↔ 10 ≤ asciiDigitCount text := by
  unfold containsPhoneNumber asciiDigitCount
  rw [foldl_digit_count]
  simp

/-- C9: `containsPhoneNumber` answers true exactly when the message has at
least ten ASCII digit characters in total, contiguous or not; so exactly ten
digits are accepted and nine are rejected.  The Contact state moves to
`"confirmation"` exactly in the accepted case, storing the message verbatim
under `contact`; otherwise it stays in `"contact"` with the context unchanged. -/
theorem phone_number_boundary (L : GoStrings) (message : String) (context : Context)
    (n : Nat) :
    (containsPhoneNumber message = true ↔ 10 ≤ asciiDigitCount message) ∧
    (asciiDigitCount message = 10 → containsPhoneNumber message = true) ∧
    (asciiDigitCount message = 9 → containsPhoneNumber message = false) ∧
    ((stateFlowHandler L "contact" message context n).nextState = "confirmation" ↔
      10 ≤ asciiDigitCount message) ∧
    (10 ≤ asciiDigitCount message →
      (stateFlowHandler L "contact" message context n).context =
        setKey context "contact" (Value.str message)) ∧
    (asciiDigitCount message < 10 →
      (stateFlowHandler L "contact" message context n).nextState = "contact" ∧
      (stateFlowHandler L "contact" message context n).context = context) := by
  have key := containsPhoneNumber_iff message
  rw [stateFlowHandler_contact]
  unfold handleContactState
  refine ⟨key, ?_, ?_, ?_, ?_, ?_⟩
  · intro h
    exact key.2 (by omega)
  · intro h
    cases hp : containsPhoneNumber message
    · rfl
    · have := key.1 hp
      omega
  · cases hp : containsPhoneNumber message
    · rw [if_neg (by decide)]
      constructor
      · intro h
        have h2 : StateContact = "confirmation" := h
        exact absurd h2 (by decide)
      · intro h
        rw [key.2 h] at hp
        exact absurd hp (by decide)
    · rw [if_pos rfl]
      exact ⟨fun _ => key.1 hp, fun _ => rfl⟩
  · intro h
    rw [if_pos (key.2 h)]
  · intro h
    have hp : ¬ containsPhoneNumber message = true := fun hp => by
      have := key.1 hp
      omega
    rw [if_neg hp]
    exact ⟨rfl, rfl⟩

/-- Witness of `phone_number_boundary`: ten digits spread over a message are
accepted, nine are rejected. -/
theorem phone_number_boundary_witness :
    asciiDigitCount "98765 43210" = 10 ∧
    containsPhoneNumber "98765 43210" = true ∧
    asciiDigitCount "98765 4321" = 9 ∧
    containsPhoneNumber "98765 4321" = false ∧
    (stateFlowHandler asciiStrings "contact" "98765 43210" emptyContext 0).context =
      setKey emptyContext "contact" (Value.str "98765 43210") ∧
    (stateFlowHandler asciiStrings "contact" "98765 4321" emptyContext 0).nextState =
      "contact" :=
  ⟨by decide,
   (phone_number_boundary asciiStrings "98765 43210" emptyContext 0).2.1 (by decide),
   by decide,
   (phone_number_boundary asciiStrings "98765 4321" emptyContext 0).2.2.1 (by decide),
   (phone_number_boundary asciiStrings "98765 43210" emptyContext 0).2.2.2.2.1 (by decide),
   ((phone_number_boundary asciiStrings "98765 4321" emptyContext 0).2.2.2.2.2
      (by decide)).1⟩

/-! ## Booking reference -/

theorem digitChar_isDigit (d : Nat) (h : d < 10) : isDigitChar (digitChar d) = true := by
  revert d
  decide

theorem digitChar_value (d : Nat) (h : d < 10) : (digitChar d).toNat - 48 = d := by
  revert d
  decide

/-- C10: for a draw `n < 1000000`, the booking reference that a positive
confirmation writes into the context is `"BBQ"` followed by exactly six
decimal digits, nine characters in all, and the six digits are `n` in decimal
left-padded with zeros to width six (read back as a number they give `n`). -/
theorem booking_reference_format (L : GoStrings) (message : String) (context : Context)
    (n : Nat) (hn : n < 1000000)
    (hpos : (stateFlowHandler L "confirmation" message context n).nextState = "end") :
    (stateFlowHandler L "confirmation" message context n).context "booking_reference" =
      some (Value.str ("BBQ" ++ generateBookingReference n)) ∧
    ("BBQ" ++ generateBookingReference n).data =
      ['B', 'B', 'Q', digitChar (n / 100000 % 10), digitChar (n / 10000 % 10),
        digitChar (n / 1000 % 10), digitChar (n / 100 % 10), digitChar (n / 10 % 10),
        digitChar (n % 10)] ∧
    ("BBQ" ++ generateBookingReference n).length = 9 ∧
    (generateBookingReference n).length = 6 ∧
    (∀ c ∈ (generateBookingReference n).data, isDigitChar c = true) ∧
    digitsValue (generateBookingReference n).data = n := by
  have e : generateBookingReference n = zeroPadded6 n := sprintf06d_eq_zeroPadded6 n hn
  rw [stateFlowHandler_confirmation] at hpos ⊢
  have hyes := handleConfirmationState_end L message context n hpos
  rw [handleConfirmationState_positive L message context n hyes, e]
  refine ⟨by simp [setKey], rfl, rfl, rfl, ?_, ?_⟩
  · intro c hc
    simp only [zeroPadded6, List.mem_cons, List.mem_singleton, List.not_mem_nil,
      or_false] at hc
    rcases hc with h | h | h | h | h | h <;> subst h <;>
      exact digitChar_isDigit _ (Nat.mod_lt _ (by decide))
  · simp only [zeroPadded6, digitsValue, List.foldl_cons, List.foldl_nil]
    rw [digitChar_value _ (Nat.mod_lt _ (by decide)),
      digitChar_value _ (Nat.mod_lt _ (by decide)),
      digitChar_value _ (Nat.mod_lt _ (by decide)),
      digitChar_value _ (Nat.mod_lt _ (by decide)),
      digitChar_value _ (Nat.mod_lt _ (by decide)),
      digitChar_value _ (Nat.mod_lt _ (by decide))]
    omega

/-- Witness of `booking_reference_format`: the draw 42 gives `BBQ000042`. -/
theorem booking_reference_format_witness :
    (stateFlowHandler asciiStrings "confirmation" "yes" emptyContext 42).context
      "booking_reference" = some (Value.str ("BBQ" ++ generateBookingReference 42)) ∧
    "BBQ" ++ generateBookingReference 42 = "BBQ000042" :=
  ⟨(booking_reference_format asciiStrings "yes" emptyContext 42 (by decide)
      (by decide)).1,
   by decide⟩

/-! ## Number extraction: the loop -/

theorem numberWord_chain (lw : String) (d : Int) :
    (if lw = "one" then 1
      else if lw = "two" then 2
      else if lw = "three" then 3
      else if lw = "four" then 4
      else if lw = "five" then 5
      else if lw = "six" then 6
      else if lw = "seven" then 7
      else if lw = "eight" then 8
      else if lw = "nine" then 9
      else if lw = "ten" then 10
      else d) = (match numberWord lw with
        | some v => v
        | none => d) := by
  unfold numberWord
  by_cases h0 : lw = "one"
  · rw [if_pos h0, if_pos h0]
  rw [if_neg h0, if_neg h0]
  by_cases h1 : lw = "two"
  · rw [if_pos h1, if_pos h1]
  rw [if_neg h1, if_neg h1]
  by_cases h2 : lw = "three"
  · rw [if_pos h2, if_pos h2]
  rw [if_neg h2, if_neg h2]
  by_cases h3 : lw = "four"
  · rw [if_pos h3, if_pos h3]
  rw [if_neg h3, if_neg h3]
  by_cases h4 : lw = "five"
  · rw [if_pos h4, if_pos h4]
  rw [if_neg h4, if_neg h4]
  by_cases h5 : lw = "six"
  · rw [if_pos h5, if_pos h5]
  rw [if_neg h5, if_neg h5]
  by_cases h6 : lw = "seven"
  · rw [if_pos h6, if_pos h6]
  rw [if_neg h6, if_neg h6]
  by_cases h7 : lw = "eight"
  · rw [if_pos h7, if_pos h7]
  rw [if_neg h7, if_neg h7]
  by_cases h8 : lw = "nine"
  · rw [if_pos h8, if_pos h8]
  rw [if_neg h8, if_neg h8]
  by_cases h9 : lw = "ten"
  · rw [if_pos h9, if_pos h9]
  rw [if_neg h9, if_neg h9]

theorem extractNumberLoop_cons (L : GoStrings) (w : List Char) (ws : List (List Char)) :
    extractNumberLoop L (w :: ws) =
      match tokenValue L w with
      | some v => v
      | none => extractNumberLoop L ws := by
  rw [extractNumberLoop]
  unfold tokenValue
  split
  · rfl
  · exact numberWord_chain _ _

theorem extractNumberLoop_eq (L : GoStrings) (ws : List (List Char)) :
    extractNumberLoop L ws = (ws.findSome? (tokenValue L)).getD 2 := by
  induction ws with
  | nil => rfl
  | cons w ws ih =>
    rw [extractNumberLoop_cons, List.findSome?_cons]
    cases tokenValue L w with
    | some v => rfl
    | none => exact ih

theorem handleReservationState_context (L : GoStrings) (message : String)
    (context : Context) :
    (handleReservationState L message context).2.2 =
      if (hasDate L message && hasTime L message && hasNumber message) = true then
        setKey (setKey context "reservation_text" (Value.str message)) "party_size"
          (Value.int (extractNumber L message))
      else setKey context "reservation_text" (Value.str message) := by
  unfold handleReservationState
  cases hasDate L message <;> cases hasTime L message <;> cases hasNumber message <;> rfl

/-- C12: `formatConfirmationMessage` is the fixed sentence with four slots:
the title-cased outlet with every underscore replaced by a space, the
title-cased city, the reservation text and the contact, both verbatim.  A slot
whose key is missing or holds a non-string is the empty string, so with the
empty context (and `Title("") = ""`) the result is
`"Please confirm your reservation details:  outlet in , . Contact: . Is this correct?"`. -/
theorem formatConfirmationMessage_text (L : GoStrings) (context : Context) :
    formatConfirmationMessage L context =
      "Please confirm your reservation details: " ++
        L.title (replaceUnderscores (getString context "outlet")) ++ " outlet in " ++
        L.title (getString context "city") ++ ", " ++
        getString context "reservation_text" ++ ". Contact: " ++
        getString context "contact" ++ ". Is this correct?" ∧
    (∀ k s, context k = some (Value.str s) → getString context k = s) ∧
    (∀ k, context k = none → getString context k = "") ∧
    (∀ k v, context k = some v → (∀ s, v ≠ Value.str s) → getString context k = "") ∧
    (∀ s, (replaceUnderscores s).data = s.data.map (fun c => if c = '_' then ' ' else c)) ∧
    (L.title "" = "" → formatConfirmationMessage L emptyContext =
      "Please confirm your reservation details:  outlet in , . Contact: . Is this correct?") := by
  refine ⟨rfl, ?_, ?_, ?_, fun s => rfl, ?_⟩
  · intro k s h
    simp [getString, h]
  · intro k h
    simp [getString, h]
  · intro k v h hv
    unfold getString
    rw [h]
    cases v with
    | str s => exact absurd rfl (hv s)
    | _ => rfl
  · intro h
    have e : replaceUnderscores "" = "" := by decide
    have g : ∀ k, getString emptyContext k = "" := fun k => rfl
    unfold formatConfirmationMessage
    simp only [g, e, h]
    decide

/-- Witness of `formatConfirmationMessage_text`: the empty context under the
ASCII instance. -/
theorem formatConfirmationMessage_text_witness :
    asciiStrings.title "" = "" ∧
    formatConfirmationMessage asciiStrings emptyContext =
      "Please confirm your reservation details:  outlet in , . Contact: . Is this correct?" :=
  ⟨by decide,
   (formatConfirmationMessage_text asciiStrings emptyContext).2.2.2.2.2 (by decide)⟩

/-! ## Keys are only added -/

theorem setKey_extends (c1 c2 : Context) (key : String) (v : Value)
    (hk : key ∈ slotKeys)
    (h : ∀ k, c2 k = c1 k ∨ (k ∈ slotKeys ∧ c2 k ≠ none)) :
    ∀ k, setKey c2 key v k = c1 k ∨ (k ∈ slotKeys ∧ setKey c2 key v k ≠ none) := by
  intro k
  unfold setKey
  by_cases e : k = key
  · subst e
    right
    simp [hk]
  · simp only [e, if_false]
    exact h k

theorem handleGreetingState_extends (L : GoStrings) (message : String) (context : Context) :
    ∀ k, (handleGreetingState L message context).2.2 k = context k ∨
      (k ∈ slotKeys ∧ (handleGreetingState L message context).2.2 k ≠ none) := by
  unfold handleGreetingState
  split_ifs
  · exact fun k => Or.inl rfl
  · exact fun k => Or.inl rfl
  · exact setKey_extends _ _ _ _ (by decide) (fun k => Or.inl rfl)
  · exact setKey_extends _ _ _ _ (by decide) (fun k => Or.inl rfl)
  · exact fun k => Or.inl rfl

theorem handleCityState_extends (L : GoStrings) (message : String) (context : Context) :
    ∀ k, (handleCityState L message context).2.2 k = context k ∨
      (k ∈ slotKeys ∧ (handleCityState L message context).2.2 k ≠ none) := by
  unfold handleCityState
  split_ifs
  · exact setKey_extends _ _ _ _ (by decide) (fun k => Or.inl rfl)
  · exact setKey_extends _ _ _ _ (by decide) (fun k => Or.inl rfl)
  · exact fun k => Or.inl rfl

theorem handleOutletState_extends (L : GoStrings) (message : String) (context : Context) :
    ∀ k, (handleOutletState L message context).2.2 k = context k ∨
      (k ∈ slotKeys ∧ (handleOutletState L message context).2.2 k ≠ none) := by
  unfold handleOutletState
  simp only
  split
  · exact setKey_extends _ _ _ _ (by decide) (fun k => Or.inl rfl)
  · split
    · exact setKey_extends _ _ _ _ (by decide) (fun k => Or.inl rfl)
    · split_ifs <;> exact fun k => Or.inl rfl

theorem handleReservationState_extends (L : GoStrings) (message : String)
    (context : Context) :
    ∀ k, (handleReservationState L message context).2.2 k = context k ∨
      (k ∈ slotKeys ∧ (handleReservationState L message context).2.2 k ≠ none) := by
  rw [handleReservationState_context]
  split_ifs
  · exact setKey_extends _ _ _ _ (by decide)
      (setKey_extends _ _ _ _ (by decide) (fun k => Or.inl rfl))
  · exact setKey_extends _ _ _ _ (by decide) (fun k => Or.inl rfl)

theorem handleContactState_extends (L : GoStrings) (message : String) (context : Context) :
    ∀ k, (handleContactState L message context).2.2 k = context k ∨
      (k ∈ slotKeys ∧ (handleContactState L message context).2.2 k ≠ none) := by
  unfold handleContactState
  split_ifs
  · exact setKey_extends _ _ _ _ (by decide) (fun k => Or.inl rfl)
  · exact fun k => Or.inl rfl

theorem handleConfirmationState_extends (L : GoStrings) (message : String)
    (context : Context) (draw : Nat) :
    ∀ k, (handleConfirmationState L message context draw).2.2.1 k = context k ∨
      (k ∈ slotKeys ∧ (handleConfirmationState L message context draw).2.2.1 k ≠ none) := by
  unfold handleConfirmationState
  split_ifs
  · exact setKey_extends _ _ _ _ (by decide)
      (setKey_extends _ _ _ _ (by decide) (fun k => Or.inl rfl))
  · exact fun k => Or.inl rfl
  · exact fun k => Or.inl rfl

theorem stateFlowHandler_extends (L : GoStrings) (cs message : String) (context : Context)
    (draw : Nat) :
    ∀ k, (stateFlowHandler L cs message context draw).context k = context k ∨
      (k ∈ slotKeys ∧ (stateFlowHandler L cs message context draw).context k ≠ none) := by
  by_cases h : cs ∈ definedStates
  · simp only [definedStates, List.mem_cons, List.mem_singleton, List.not_mem_nil,
      or_false, StateGreeting, StateCity, StateOutlet, StateReservation, StateContact,
      StateConfirmation, StateEnd] at h
    rcases h with h | h | h | h | h | h | h <;> subst h
    · rw [stateFlowHandler_greeting]
      exact handleGreetingState_extends L message context
    · rw [stateFlowHandler_city]
      exact handleCityState_extends L message context
    · rw [stateFlowHandler_outlet]
      exact handleOutletState_extends L message context
    · rw [stateFlowHandler_reservation]
      exact handleReservationState_extends L message context
    · rw [stateFlowHandler_contact]
      exact handleContactState_extends L message context
    · rw [stateFlowHandler_confirmation]
      exact handleConfirmationState_extends L message context draw
    · rw [stateFlowHandler_end]
      exact fun k => Or.inl rfl
  · by_cases h0 : cs = ""
    · subst h0
      rw [stateFlowHandler_empty, stateFlowHandler_greeting]
      exact handleGreetingState_extends L message context
    · rw [stateFlowHandler_default L cs message context draw h0 h]
      exact fun k => Or.inl rfl

/-- C13: whatever the current state, the message and the context, every key
of the input context is still present in the returned context, and every key
other than `city`, `outlet`, `reservation_text`, `party_size`, `contact`,
`booking_confirmed` and `booking_reference` keeps its input value. -/
theorem context_keys_kept (L : GoStrings) (cs message : String) (context : Context)
    (draw : Nat) :
    (∀ k, context k ≠ none →
      (stateFlowHandler L cs message context draw).context k ≠ none) ∧
    (∀ k, k ∉ ["city", "outlet", "reservation_text", "party_size", "contact",
        "booking_confirmed", "booking_reference"] →
      (stateFlowHandler L cs message context draw).context k = context k) := by
  constructor
  · intro k hk
    rcases stateFlowHandler_extends L cs message context draw k with h | h
    · rw [h]
      exact hk
    · exact h.2
  · intro k hk
    rcases stateFlowHandler_extends L cs message context draw k with h | h
    · exact h
    · exact absurd h.1 hk

/-- Witness of `context_keys_kept`: a foreign key `note` survives a City
turn that stores a city. -/
theorem context_keys_kept_witness :
    (stateFlowHandler asciiStrings "city" "Delhi"
      (setKey emptyContext "note" (Value.str "vip")) 0).context "note" =
      some (Value.str "vip") ∧
    (stateFlowHandler asciiStrings "city" "Delhi"
      (setKey emptyContext "note" (Value.str "vip")) 0).context "city" ≠ none :=
  ⟨(context_keys_kept asciiStrings "city" "Delhi"
      (setKey emptyContext "note" (Value.str "vip")) 0).2 "note" (by decide),
   fun h => Option.noConfusion
     (h.symm.trans (show (stateFlowHandler asciiStrings "city" "Delhi"
      (setKey emptyContext "note" (Value.str "vip")) 0).context "city" =
        some (Value.str "delhi") from rfl))⟩

/-! ## The happy path -/

theorem happy_turn1 (d : Nat) :
    (stateFlowHandler asciiStrings "greeting" "I want to book a table" emptyContext
      d).nextState = "city" ∧
    (stateFlowHandler asciiStrings "greeting" "I want to book a table" emptyContext
      d).context = emptyContext ∧
    (stateFlowHandler asciiStrings "greeting" "I want to book a table" emptyContext
      d).finished = false := by
  rw [stateFlowHandler_greeting]
  unfold handleGreetingState
  rw [if_pos (by decide)]
  exact ⟨rfl, rfl, rfl⟩

theorem happy_turn2 (d : Nat) :
    (stateFlowHandler asciiStrings "city" "Delhi" emptyContext d).nextState = "outlet" ∧
    (stateFlowHandler asciiStrings "city" "Delhi" emptyContext d).context =
      setKey emptyContext "city" (Value.str "delhi") ∧
    (stateFlowHandler asciiStrings "city" "Delhi" emptyContext d).finished = false := by
  rw [stateFlowHandler_city]
  unfold handleCityState
  rw [if_pos (by decide)]
  exact ⟨rfl, rfl, rfl⟩

theorem happy_turn3 (d : Nat) :
    (stateFlowHandler asciiStrings "outlet" "Connaught Place please"
      (setKey emptyContext "city" (Value.str "delhi")) d).nextState = "reservation" ∧
    (stateFlowHandler asciiStrings "outlet" "Connaught Place please"
      (setKey emptyContext "city" (Value.str "delhi")) d).context =
      setKey (setKey emptyContext "city" (Value.str "delhi")) "outlet"
        (Value.str "connaught_place") ∧
    (stateFlowHandler asciiStrings "outlet" "Connaught Place please"
      (setKey emptyContext "city" (Value.str "delhi")) d).finished = false := by
  have g : getString (setKey emptyContext "city" (Value.str "delhi")) "city" = "delhi" :=
    rfl
  rw [stateFlowHandler_outlet]
  unfold handleOutletState delhiOutlet
  simp only [g]
  rw [if_pos (by decide)]
  refine ⟨?_, ?_, ?_⟩ <;> first | rfl | trivial

theorem happy_turn4 (c : Context) (d : Nat) :
    (stateFlowHandler asciiStrings "reservation" "tomorrow at 7pm for 4 people" c
      d).nextState = "contact" ∧
    (stateFlowHandler asciiStrings "reservation" "tomorrow at 7pm for 4 people" c
      d).context =
      setKey (setKey c "reservation_text" (Value.str "tomorrow at 7pm for 4 people"))
        "party_size" (Value.int 4) ∧
    (stateFlowHandler asciiStrings "reservation" "tomorrow at 7pm for 4 people" c
      d).finished = false := by
  have e : extractNumber asciiStrings "tomorrow at 7pm for 4 people" = 4 := by decide
  rw [stateFlowHandler_reservation]
  refine ⟨?_, ?_, rfl⟩
  · unfold handleReservationState
    rw [if_pos (by decide), if_pos (by decide)]
    rfl
  · show (handleReservationState asciiStrings "tomorrow at 7pm for 4 people" c).2.2 = _
    rw [handleReservationState_context, if_pos (by decide), e]

theorem happy_turn5 (d : Nat) :
    (stateFlowHandler asciiStrings "contact" "9876543210"
      (setKey (setKey (setKey (setKey emptyContext "city" (Value.str "delhi")) "outlet"
        (Value.str "connaught_place")) "reservation_text"
        (Value.str "tomorrow at 7pm for 4 people")) "party_size" (Value.int 4))
      d).nextState = "confirmation" ∧
    (stateFlowHandler asciiStrings "contact" "9876543210"
      (setKey (setKey (setKey (setKey emptyContext "city" (Value.str "delhi")) "outlet"
        (Value.str "connaught_place")) "reservation_text"
        (Value.str "tomorrow at 7pm for 4 people")) "party_size" (Value.int 4))
      d).context =
      setKey (setKey (setKey (setKey (setKey emptyContext "city" (Value.str "delhi"))
        "outlet" (Value.str "connaught_place")) "reservation_text"
        (Value.str "tomorrow at 7pm for 4 people")) "party_size" (Value.int 4))
        "contact" (Value.str "9876543210") ∧
    (stateFlowHandler asciiStrings "contact" "9876543210"
      (setKey (setKey (setKey (setKey emptyContext "city" (Value.str "delhi")) "outlet"
        (Value.str "connaught_place")) "reservation_text"
        (Value.str "tomorrow at 7pm for 4 people")) "party_size" (Value.int 4))
      d).finished = false ∧
    (stateFlowHandler asciiStrings "contact" "9876543210"
      (setKey (setKey (setKey (setKey emptyContext "city" (Value.str "delhi")) "outlet"
        (Value.str "connaught_place")) "reservation_text"
        (Value.str "tomorrow at 7pm for 4 people")) "party_size" (Value.int 4))
      d).response =
      "Please confirm your reservation details: Connaught Place outlet in Delhi, tomorrow at 7pm for 4 people. Contact: 9876543210. Is this correct?" := by
  rw [stateFlowHandler_contact]
  unfold handleContactState
  rw [if_pos (by decide)]
  refine ⟨rfl, rfl, rfl, ?_⟩
  decide

/-- C14: the happy path.  From the Greeting state and the empty context, the
six messages below give the next states `city`, `outlet`, `reservation`,
`contact`, `confirmation`, `end`; `finished` is true on the last turn only;
the fifth response is the confirmation sentence with all four slots; and the
final context holds the six slots and a booking reference `BBQ` followed by
the six digits of the last draw. -/
theorem happy_path (d1 d2 d3 d4 d5 n : Nat) (hn : n < 1000000) :
    (transcript asciiStrings ("greeting", emptyContext)
      [("I want to book a table", d1), ("Delhi", d2), ("Connaught Place please", d3),
        ("tomorrow at 7pm for 4 people", d4), ("9876543210", d5),
        ("yes that's correct", n)]).map StateFlowResponse.nextState =
      ["city", "outlet", "reservation", "contact", "confirmation", "end"] ∧
    (transcript asciiStrings ("greeting", emptyContext)
      [("I want to book a table", d1), ("Delhi", d2), ("Connaught Place please", d3),
        ("tomorrow at 7pm for 4 people", d4), ("9876543210", d5),
        ("yes that's correct", n)]).map StateFlowResponse.finished =
      [false, false, false, false, false, true] ∧
    ((transcript asciiStrings ("greeting", emptyContext)
      [("I want to book a table", d1), ("Delhi", d2), ("Connaught Place please", d3),
        ("tomorrow at 7pm for 4 people", d4), ("9876543210", d5),
        ("yes that's correct", n)]).map StateFlowResponse.response).get? 4 =
      some "Please confirm your reservation details: Connaught Place outlet in Delhi, tomorrow at 7pm for 4 people. Contact: 9876543210. Is this correct?" ∧
    (converse asciiStrings ("greeting", emptyContext)
      [("I want to book a table", d1), ("Delhi", d2), ("Connaught Place please", d3),
        ("tomorrow at 7pm for 4 people", d4), ("9876543210", d5),
        ("yes that's correct", n)]).1 = "end" ∧
    (converse asciiStrings ("greeting", emptyContext)
      [("I want to book a table", d1), ("Delhi", d2), ("Connaught Place please", d3),
        ("tomorrow at 7pm for 4 people", d4), ("9876543210", d5),
        ("yes that's correct", n)]).2 =
      setKey (setKey (setKey (setKey (setKey (setKey (setKey emptyContext
        "city" (Value.str "delhi"))
        "outlet" (Value.str "connaught_place"))
        "reservation_text" (Value.str "tomorrow at 7pm for 4 people"))
        "party_size" (Value.int 4))
        "contact" (Value.str "9876543210"))
        "booking_confirmed" (Value.bool true))
        "booking_reference" (Value.str ("BBQ" ++ zeroPadded6 n)) ∧
    ("BBQ" ++ zeroPadded6 n).data =
      ['B', 'B', 'Q', digitChar (n / 100000 % 10), digitChar (n / 10000 % 10),
        digitChar (n / 1000 % 10), digitChar (n / 100 % 10), digitChar (n / 10 % 10),
        digitChar (n % 10)] := by
  have t1 := happy_turn1 d1
  have t2 := happy_turn2 d2
  have t3 := happy_turn3 d3
  have t4 := happy_turn4 (setKey (setKey emptyContext "city" (Value.str "delhi")) "outlet"
    (Value.str "connaught_place")) d4
  have t5 := happy_turn5 d5
  have t6 := handleConfirmationState_positive asciiStrings "yes that's correct"
    (setKey (setKey (setKey (setKey (setKey emptyContext "city" (Value.str "delhi"))
      "outlet" (Value.str "connaught_place")) "reservation_text"
      (Value.str "tomorrow at 7pm for 4 people")) "party_size" (Value.int 4))
      "contact" (Value.str "9876543210")) n (Or.inl (by decide))
  have e : generateBookingReference n = zeroPadded6 n := sprintf06d_eq_zeroPadded6 n hn
  rw [e] at t6
  simp only [transcript, converse, List.map, t1.1, t1.2.1, t1.2.2, t2.1, t2.2.1, t2.2.2,
    t3.1, t3.2.1, t3.2.2, t4.1, t4.2.1, t4.2.2, t5.1, t5.2.1, t5.2.2.1, t5.2.2.2,
    stateFlowHandler_confirmation, t6]
  refine ⟨?_, ?_, ?_, ?_, ?_, ?_⟩ <;> first | rfl | trivial

/-- Witness of `happy_path` with the last draw 123456. -/
theorem happy_path_witness :
    (converse asciiStrings ("greeting", emptyContext)
      [("I want to book a table", 0), ("Delhi", 0), ("Connaught Place please", 0),
        ("tomorrow at 7pm for 4 people", 0), ("9876543210", 0),
        ("yes that's correct", 123456)]).1 = "end" ∧
    "BBQ" ++ zeroPadded6 123456 = "BBQ123456" :=
  ⟨(happy_path 0 0 0 0 0 123456 (by decide)).2.2.2.1, by decide⟩

/-! ## The reservation signals -/

theorem containsChars_singleton (s : List Char) (c : Char) :
    containsChars s [c] = true ↔ c ∈ s := by
  induction s with
  | nil => simp [containsChars, List.isPrefixOf]
  | cons a s ih =>
    rw [containsChars, Bool.or_eq_true, ih, List.mem_cons, List.isPrefixOf_iff_prefix,
      List.cons_prefix_cons]
    simp [List.nil_prefix]

theorem hasDate_eq (L : GoStrings) (message : String) :
    hasDate L message = dateKeywords.any (fun k => strContains (L.toLower message) k) := by
  simp [hasDate, dateKeywords, List.any, Bool.or_assoc]

theorem hasTime_eq (L : GoStrings) (message : String) :
    hasTime L message = (strContains message ":" ||
      timeKeywords.any (fun k => strContains (L.toLower message) k)) := by
  simp [hasTime, timeKeywords, List.any, Bool.or_assoc]

theorem hasNumber_eq (message : String) : hasNumber message = hasDigitOneToNine message := by
  rw [Bool.eq_iff_iff]
  have k : ∀ c : Char, strContains message (String.singleton c) = true ↔ c ∈ message.data :=
    fun c => containsChars_singleton message.data c
  unfold hasNumber hasDigitOneToNine
  simp only [Bool.or_eq_true, List.any_eq_true, decide_eq_true_eq, List.mem_cons,
    List.mem_singleton, List.not_mem_nil, or_false]
  have k1 := k '1'
  have k2 := k '2'
  have k3 := k '3'
  have k4 := k '4'
  have k5 := k '5'
  have k6 := k '6'
  have k7 := k '7'
  have k8 := k '8'
  have k9 := k '9'
  rw [show String.singleton '1' = "1" from rfl] at k1
  rw [show String.singleton '2' = "2" from rfl] at k2
  rw [show String.singleton '3' = "3" from rfl] at k3
  rw [show String.singleton '4' = "4" from rfl] at k4
  rw [show String.singleton '5' = "5" from rfl] at k5
  rw [show String.singleton '6' = "6" from rfl] at k6
  rw [show String.singleton '7' = "7" from rfl] at k7
  rw [show String.singleton '8' = "8" from rfl] at k8
  rw [show String.singleton '9' = "9" from rfl] at k9
  rw [k1, k2, k3, k4, k5, k6, k7, k8, k9]
  constructor
  · intro h
    rcases h with (((((((h | h) | h) | h) | h) | h) | h) | h) | h
    · exact ⟨_, h, Or.inl rfl⟩
    · exact ⟨_, h, Or.inr (Or.inl rfl)⟩
    · exact ⟨_, h, Or.inr (Or.inr (Or.inl rfl))⟩
    · exact ⟨_, h, Or.inr (Or.inr (Or.inr (Or.inl rfl)))⟩
    · exact ⟨_, h, Or.inr (Or.inr (Or.inr (Or.inr (Or.inl rfl))))⟩
    · exact ⟨_, h, Or.inr (Or.inr (Or.inr (Or.inr (Or.inr (Or.inl rfl)))))⟩
    · exact ⟨_, h, Or.inr (Or.inr (Or.inr (Or.inr (Or.inr (Or.inr (Or.inl rfl))))))⟩
    · exact ⟨_, h, Or.inr (Or.inr (Or.inr (Or.inr (Or.inr (Or.inr (Or.inr (Or.inl rfl)))))))⟩
    · exact ⟨_, h, Or.inr (Or.inr (Or.inr (Or.inr (Or.inr (Or.inr (Or.inr (Or.inr rfl)))))))⟩
  · rintro ⟨c, hc, h⟩
    rcases h with h | h | h | h | h | h | h | h | h <;> subst h <;> simp [hc]

/-- C15: the transition from Reservation answers `"contact"` exactly when the
date signal (the lower-cased message contains `today`, `tomorrow` or a weekday
name) and the time signal (the message contains `:` or, lower-cased, `am`,
`pm`, `noon`, `night`, `evening`, `lunch` or `dinner`) are both present, and
`"reservation"` otherwise.  When it answers `"contact"`, `reservation_text` is
the message verbatim, and `party_size` is written exactly when the raw message
contains one of the digits 1 to 9: a zero alone does not count. -/
theorem reservation_signals (L : GoStrings) (message : String) (context : Context)
    (n : Nat) :
    ((stateFlowHandler L "reservation" message context n).nextState = "contact" ↔
      (dateKeywords.any (fun k => strContains (L.toLower message) k) = true ∧
        (strContains message ":" = true ∨
          timeKeywords.any (fun k => strContains (L.toLower message) k) = true))) ∧
    ((stateFlowHandler L "reservation" message context n).nextState ≠ "contact" →
      (stateFlowHandler L "reservation" message context n).nextState = "reservation") ∧
    ((stateFlowHandler L "reservation" message context n).nextState = "contact" →
      (stateFlowHandler L "reservation" message context n).context "reservation_text" =
        some (Value.str message) ∧
      (hasDigitOneToNine message = true →
        (stateFlowHandler L "reservation" message context n).context =
          setKey (setKey context "reservation_text" (Value.str message)) "party_size"
            (Value.int (extractNumber L message))) ∧
      (hasDigitOneToNine message = false →
        (stateFlowHandler L "reservation" message context n).context =
          setKey context "reservation_text" (Value.str message))) := by
  rw [stateFlowHandler_reservation]
  rw [← hasDate_eq, ← Bool.or_eq_true, ← hasTime_eq, ← hasNumber_eq]
  unfold handleReservationState
  cases hd : hasDate L message <;> cases ht : hasTime L message <;>
    cases hn : hasNumber message <;>
    simp [StateContact, StateReservation, setKey]

/-- Witness of `reservation_signals`: `"tomorrow at 7pm for 4 people"` moves to
`"contact"` and stores the party size; `"tomorrow at noon, table for 0"` moves
to `"contact"` and stores none. -/
theorem reservation_signals_witness :
    (stateFlowHandler asciiStrings "reservation" "tomorrow at 7pm for 4 people"
      emptyContext 0).context =
        setKey (setKey emptyContext "reservation_text"
          (Value.str "tomorrow at 7pm for 4 people")) "party_size"
          (Value.int (extractNumber asciiStrings "tomorrow at 7pm for 4 people")) ∧
    (stateFlowHandler asciiStrings "reservation" "tomorrow at noon, table for 0"
      emptyContext 0).context =
        setKey emptyContext "reservation_text"
          (Value.str "tomorrow at noon, table for 0") :=
  ⟨((reservation_signals asciiStrings "tomorrow at 7pm for 4 people" emptyContext 0).2.2
      (by decide)).2.1 (by decide),
   ((reservation_signals asciiStrings "tomorrow at noon, table for 0" emptyContext 0).2.2
      (by decide)).2.2 (by decide)⟩

/-! ## Number extraction -/

/-- C16 (as stated, refuted): in `"two people at 7"` the token `7` parses as an
integer, so the two-pass reading gives 7; `extractNumber` returns 2, the value
of the number word `two` that stands earlier. -/
theorem number_word_before_integer :
    extractNumberTwoPass asciiStrings "two people at 7" = 7 ∧
    extractNumber asciiStrings "two people at 7" = 2 :=
  ⟨by decide, by decide⟩

/-- C16 (amended): `extractNumber` splits the text on whitespace, strips the
punctuation `,.:;!?` from both ends of each token, and returns the value of
the first token that parses as an integer or is a number word `one`..`ten`
(lower-cased), whichever token comes first, the integer reading being tried
first on each token; it returns 2 when no token has a value.  When no token
is a number word, or when no token parses as an integer, this is the two-pass
reading. -/
theorem extractNumber_first_token (L : GoStrings) (text : String) :
    extractNumber L text = ((fields text.data).findSome? (tokenValue L)).getD 2 ∧
    (∀ w : List Char, tokenValue L w =
      match atoi (trimCutset w) with
      | some v => some v
      | none => numberWord (L.toLower (String.mk (trimCutset w)))) ∧
    ((∀ w ∈ fields text.data, numberWord (L.toLower (String.mk (trimCutset w))) = none) →
      extractNumber L text = extractNumberTwoPass L text) ∧
    ((∀ w ∈ fields text.data, atoi (trimCutset w) = none) →
      extractNumber L text = extractNumberTwoPass L text) := by
  refine ⟨extractNumberLoop_eq L _, fun w => rfl, ?_, ?_⟩
  · intro h
    unfold extractNumber extractNumberTwoPass
    rw [extractNumberLoop_eq]
    have e1 : (fields text.data).findSome? (tokenValue L) =
        (fields text.data).findSome? (fun w => atoi (trimCutset w)) := by
      revert h
      generalize fields text.data = ws
      intro h
      induction ws with
      | nil => rfl
      | cons w ws ih =>
        have hw := h w (List.mem_cons_self _ _)
        have ih2 := ih (fun w2 hw2 => h w2 (List.mem_cons_of_mem _ hw2))
        rw [List.findSome?_cons, List.findSome?_cons, ih2]
        unfold tokenValue
        rw [hw]
        cases atoi (trimCutset w) <;> rfl
    have e2 : (fields text.data).findSome?
        (fun w => numberWord (L.toLower (String.mk (trimCutset w)))) = none := by
      rw [List.findSome?_eq_none_iff]
      exact h
    rw [e1, e2]
    cases (fields text.data).findSome? (fun w => atoi (trimCutset w)) <;> rfl
  · intro h
    unfold extractNumber extractNumberTwoPass
    rw [extractNumberLoop_eq]
    have e1 : (fields text.data).findSome? (tokenValue L) =
        (fields text.data).findSome?
          (fun w => numberWord (L.toLower (String.mk (trimCutset w)))) := by
      revert h
      generalize fields text.data = ws
      intro h
      induction ws with
      | nil => rfl
      | cons w ws ih =>
        have hw := h w (List.mem_cons_self _ _)
        have ih2 := ih (fun w2 hw2 => h w2 (List.mem_cons_of_mem _ hw2))
        rw [List.findSome?_cons, List.findSome?_cons, ih2]
        unfold tokenValue
        rw [hw]
    have e2 : (fields text.data).findSome? (fun w => atoi (trimCutset w)) = none := by
      rw [List.findSome?_eq_none_iff]
      exact h
    rw [e1, e2]
    cases (fields text.data).findSome?
      (fun w => numberWord (L.toLower (String.mk (trimCutset w)))) <;> rfl

/-- Witness of `extractNumber_first_token`: no token of
`"tomorrow at 7pm for 4 people"` is a number word, and the value is 4. -/
theorem extractNumber_first_token_witness :
    extractNumber asciiStrings "tomorrow at 7pm for 4 people" =
      extractNumberTwoPass asciiStrings "tomorrow at 7pm for 4 people" ∧
    extractNumberTwoPass asciiStrings "tomorrow at 7pm for 4 people" = 4 :=
  ⟨(extractNumber_first_token asciiStrings "tomorrow at 7pm for 4 people").2.2.1
      (by decide),
   by decide⟩

/-! ## Outlet selection -/

/-- C17: with `city = "delhi"` the transition from Outlet answers
`"reservation"` exactly when the lower-cased message contains `connaught`,
`cp`, `vasant` or `janakpuri`, and stores the outlet of the first check that
matches, in that order; with `city = "bangalore"` the same holds for
`indiranagar`, then `jp` or `jayanagar`, then `electronic`, then
`koramangala`.  The stored outlet belongs to the catalog of the city.  When
no keyword occurs the answer is `"outlet"` and the context is unchanged. -/
theorem outlet_selection (L : GoStrings) (message : String) (context : Context)
    (n : Nat) :
    (context "city" = some (Value.str "delhi") →
      ((stateFlowHandler L "outlet" message context n).nextState = "reservation" ↔
        (strContains (L.toLower message) "connaught" = true ∨
          strContains (L.toLower message) "cp" = true ∨
          strContains (L.toLower message) "vasant" = true ∨
          strContains (L.toLower message) "janakpuri" = true)) ∧
      ((strContains (L.toLower message) "connaught" = true ∨
          strContains (L.toLower message) "cp" = true) →
        (stateFlowHandler L "outlet" message context n).context =
          setKey context "outlet" (Value.str "connaught_place")) ∧
      (strContains (L.toLower message) "connaught" = false →
        strContains (L.toLower message) "cp" = false →
        strContains (L.toLower message) "vasant" = true →
        (stateFlowHandler L "outlet" message context n).context =
          setKey context "outlet" (Value.str "vasant_kunj")) ∧
      (strContains (L.toLower message) "connaught" = false →
        strContains (L.toLower message) "cp" = false →
        strContains (L.toLower message) "vasant" = false →
        strContains (L.toLower message) "janakpuri" = true →
        (stateFlowHandler L "outlet" message context n).context =
          setKey context "outlet" (Value.str "janakpuri")) ∧
      ((stateFlowHandler L "outlet" message context n).nextState = "reservation" →
        ∃ o ∈ outletsOf "delhi",
          (stateFlowHandler L "outlet" message context n).context =
            setKey context "outlet" (Value.str o)) ∧
      ((stateFlowHandler L "outlet" message context n).nextState ≠ "reservation" →
        (stateFlowHandler L "outlet" message context n).nextState = "outlet" ∧
        (stateFlowHandler L "outlet" message context n).context = context)) ∧
    (context "city" = some (Value.str "bangalore") →
      ((stateFlowHandler L "outlet" message context n).nextState = "reservation" ↔
        (strContains (L.toLower message) "indiranagar" = true ∨
          strContains (L.toLower message) "jp" = true ∨
          strContains (L.toLower message) "jayanagar" = true ∨
          strContains (L.toLower message) "electronic" = true ∨
          strContains (L.toLower message) "koramangala" = true)) ∧
      (strContains (L.toLower message) "indiranagar" = true →
        (stateFlowHandler L "outlet" message context n).context =
          setKey context "outlet" (Value.str "indiranagar")) ∧
      (strContains (L.toLower message) "indiranagar" = false →
        (strContains (L.toLower message) "jp" = true ∨
          strContains (L.toLower message) "jayanagar" = true) →
        (stateFlowHandler L "outlet" message context n).context =
          setKey context "outlet" (Value.str "jp_nagar")) ∧
      (strContains (L.toLower message) "indiranagar" = false →
        strContains (L.toLower message) "jp" = false →
        strContains (L.toLower message) "jayanagar" = false →
        strContains (L.toLower message) "electronic" = true →
        (stateFlowHandler L "outlet" message context n).context =
          setKey context "outlet" (Value.str "electronic_city")) ∧
      (strContains (L.toLower message) "indiranagar" = false →
        strContains (L.toLower message) "jp" = false →
        strContains (L.toLower message) "jayanagar" = false →
        strContains (L.toLower message) "electronic" = false →
        strContains (L.toLower message) "koramangala" = true →
        (stateFlowHandler L "outlet" message context n).context =
          setKey context "outlet" (Value.str "koramangala")) ∧
      ((stateFlowHandler L "outlet" message context n).nextState = "reservation" →
        ∃ o ∈ outletsOf "bangalore",
          (stateFlowHandler L "outlet" message context n).context =
            setKey context "outlet" (Value.str o)) ∧
      ((stateFlowHandler L "outlet" message context n).nextState ≠ "reservation" →
        (stateFlowHandler L "outlet" message context n).nextState = "outlet" ∧
        (stateFlowHandler L "outlet" message context n).context = context)) := by
  constructor
  · intro hc
    have g : getString context "city" = "delhi" := by simp [getString, hc]
    rw [stateFlowHandler_outlet]
    unfold handleOutletState delhiOutlet
    simp only [g]
    cases h1 : strContains (L.toLower message) "connaught" <;>
      cases h2 : strContains (L.toLower message) "cp" <;>
      cases h3 : strContains (L.toLower message) "vasant" <;>
      cases h4 : strContains (L.toLower message) "janakpuri" <;>
      simp [StateReservation, StateOutlet, outletsOf, delhiOutlets]
  · intro hc
    have g : getString context "city" = "bangalore" := by simp [getString, hc]
    rw [stateFlowHandler_outlet]
    unfold handleOutletState bangaloreOutlet
    simp only [g]
    cases h1 : strContains (L.toLower message) "indiranagar" <;>
      cases h2 : strContains (L.toLower message) "jp" <;>
      cases h3 : strContains (L.toLower message) "jayanagar" <;>
      cases h4 : strContains (L.toLower message) "electronic" <;>
      cases h5 : strContains (L.toLower message) "koramangala" <;>
      simp [StateReservation, StateOutlet, outletsOf, bangaloreOutlets]

/-- Witness of `outlet_selection`: `"Connaught Place please"` in Delhi and
`"JP Nagar"` in Bangalore. -/
theorem outlet_selection_witness :
    (stateFlowHandler asciiStrings "outlet" "Connaught Place please"
      (setKey emptyContext "city" (Value.str "delhi")) 0).context =
        setKey (setKey emptyContext "city" (Value.str "delhi")) "outlet"
          (Value.str "connaught_place") ∧
    (stateFlowHandler asciiStrings "outlet" "JP Nagar"
      (setKey emptyContext "city" (Value.str "bangalore")) 0).context =
        setKey (setKey emptyContext "city" (Value.str "bangalore")) "outlet"
          (Value.str "jp_nagar") :=
  ⟨((outlet_selection asciiStrings "Connaught Place please"
      (setKey emptyContext "city" (Value.str "delhi")) 0).1 rfl).2.1
      (Or.inl (by decide)),
   ((outlet_selection asciiStrings "JP Nagar"
      (setKey emptyContext "city" (Value.str "bangalore")) 0).2 rfl).2.2.1
      (by decide) (Or.inl (by decide))⟩

/-! ## The greeting order -/

/-- C18: the Greeting state follows the first matching check.  If the
lower-cased message contains `book`, `reserv`, `info`, `know`, `detail` or
`tell`, the next state is `"city"` and the context is unchanged, whatever
city the message names; otherwise `delhi` gives `"outlet"` with
`city = "delhi"`, whatever else it names; otherwise `bangalore` or `bengaluru`
gives `"outlet"` with `city = "bangalore"`; otherwise the next state is
`"city"` and the context is unchanged. -/
theorem greeting_first_match (L : GoStrings) (message : String) (context : Context)
    (n : Nat) :
    ((strContains (L.toLower message) "book" = true ∨
        strContains (L.toLower message) "reserv" = true ∨
        strContains (L.toLower message) "info" = true ∨
        strContains (L.toLower message) "know" = true ∨
        strContains (L.toLower message) "detail" = true ∨
        strContains (L.toLower message) "tell" = true) →
      (stateFlowHandler L "greeting" message context n).nextState = "city" ∧
      (stateFlowHandler L "greeting" message context n).context = context) ∧
    (strContains (L.toLower message) "book" = false →
      strContains (L.toLower message) "reserv" = false →
      strContains (L.toLower message) "info" = false →
      strContains (L.toLower message) "know" = false →
      strContains (L.toLower message) "detail" = false →
      strContains (L.toLower message) "tell" = false →
      (strContains (L.toLower message) "delhi" = true →
        (stateFlowHandler L "greeting" message context n).nextState = "outlet" ∧
        (stateFlowHandler L "greeting" message context n).context =
          setKey context "city" (Value.str "delhi")) ∧
      (strContains (L.toLower message) "delhi" = false →
        (strContains (L.toLower message) "bangalore" = true ∨
          strContains (L.toLower message) "bengaluru" = true) →
        (stateFlowHandler L "greeting" message context n).nextState = "outlet" ∧
        (stateFlowHandler L "greeting" message context n).context =
          setKey context "city" (Value.str "bangalore")) ∧
      (strContains (L.toLower message) "delhi" = false →
        strContains (L.toLower message) "bangalore" = false →
        strContains (L.toLower message) "bengaluru" = false →
        (stateFlowHandler L "greeting" message context n).nextState = "city" ∧
        (stateFlowHandler L "greeting" message context n).context = context)) := by
  rw [stateFlowHandler_greeting]
  unfold handleGreetingState
  constructor
  · intro h
    by_cases h1 : (strContains (L.toLower message) "book" ||
        strContains (L.toLower message) "reserv") = true
    · rw [if_pos h1]
      exact ⟨rfl, rfl⟩
    · rw [if_neg h1]
      have h2 : (strContains (L.toLower message) "info" ||
          strContains (L.toLower message) "know" ||
          strContains (L.toLower message) "detail" ||
          strContains (L.toLower message) "tell") = true := by
        simp only [Bool.or_eq_true, not_or] at h1 ⊢
        rcases h with h | h | h | h | h | h
        · exact absurd h h1.1
        · exact absurd h h1.2
        · exact Or.inl (Or.inl (Or.inl h))
        · exact Or.inl (Or.inl (Or.inr h))
        · exact Or.inl (Or.inr h)
        · exact Or.inr h
      rw [if_pos h2]
      exact ⟨rfl, rfl⟩
  · intro g1 g2 g3 g4 g5 g6
    simp only [g1, g2, g3, g4, g5, g6, Bool.or_self, Bool.false_eq_true, if_false]
    refine ⟨?_, ?_, ?_⟩
    · intro hd
      rw [if_pos hd]
      exact ⟨rfl, rfl⟩
    · intro hd hb
      have hb2 : (strContains (L.toLower message) "bangalore" ||
          strContains (L.toLower message) "bengaluru") = true := by
        rcases hb with h | h <;> simp [h]
      rw [if_neg (by rw [hd]; decide), if_pos hb2]
      exact ⟨rfl, rfl⟩
    · intro hd hb1 hb2
      simp only [hd, hb1, hb2, Bool.or_self, Bool.false_eq_true, if_false]
      exact ⟨rfl, trivial⟩

/-- Witness of `greeting_first_match`: a booking request that names
Bangalore goes to `"city"`; a message naming both cities stores Delhi. -/
theorem greeting_first_match_witness :
    (stateFlowHandler asciiStrings "greeting" "book a table in Bangalore" emptyContext
      0).nextState = "city" ∧
    (stateFlowHandler asciiStrings "greeting" "book a table in Bangalore" emptyContext
      0).context = emptyContext ∧
    (stateFlowHandler asciiStrings "greeting" "Bangalore or Delhi" emptyContext
      0).context = setKey emptyContext "city" (Value.str "delhi") :=
  ⟨((greeting_first_match asciiStrings "book a table in Bangalore" emptyContext 0).1
      (Or.inl (by decide))).1,
   ((greeting_first_match asciiStrings "book a table in Bangalore" emptyContext 0).1
      (Or.inl (by decide))).2,
   (((greeting_first_match asciiStrings "Bangalore or Delhi" emptyContext 0).2
      (by decide) (by decide) (by decide) (by decide) (by decide) (by decide)).1
      (by decide)).2⟩

/-! ## Outlet scoping along a conversation -/

theorem outletsOf_known (city outlet : String) (h : outlet ∈ outletsOf city) :
    (city = "delhi" ∨ city = "bangalore") ∧ outlet ∈ delhiOutlets ++ bangaloreOutlets := by
  unfold outletsOf at h
  split_ifs at h with h1 h2
  · exact ⟨Or.inl h1, List.mem_append_left _ h⟩
  · exact ⟨Or.inr h2, List.mem_append_right _ h⟩
  · exact absurd h (List.not_mem_nil _)

theorem outletScoped_congr (c1 c2 : Context) (h1 : c2 "city" = c1 "city")
    (h2 : c2 "outlet" = c1 "outlet") : outletScoped c2 = outletScoped c1 := by
  unfold outletScoped
  rw [h1, h2]

theorem outletKnown_congr (c1 c2 : Context) (h1 : c2 "city" = c1 "city")
    (h2 : c2 "outlet" = c1 "outlet") : outletKnown c2 = outletKnown c1 := by
  unfold outletKnown
  rw [h1, h2]

theorem outletKnown_setCity (c : Context) (city : String)
    (hc : city = "delhi" ∨ city = "bangalore") (h : outletKnown c = true) :
    outletKnown (setKey c "city" (Value.str city)) = true := by
  unfold outletKnown at h ⊢
  have e1 : setKey c "city" (Value.str city) "outlet" = c "outlet" := by
    simp [setKey]
  have e2 : setKey c "city" (Value.str city) "city" = some (Value.str city) := by
    simp [setKey]
  rw [e1, e2]
  cases ho : c "outlet" with
  | none => rfl
  | some v =>
    rw [ho] at h
    cases v with
    | str o =>
      simp only at h ⊢
      cases hcity : c "city" with
      | none => rw [hcity] at h; simp at h
      | some w =>
        rw [hcity] at h
        cases w with
        | str c0 =>
          simp only [Bool.and_eq_true, decide_eq_true_eq] at h ⊢
          exact ⟨hc, h.2⟩
        | _ => simp at h
    | _ => simp at h

theorem outletKnown_setOutlet (c : Context) (city outlet : String)
    (hc : c "city" = some (Value.str city)) (ho : outlet ∈ outletsOf city) :
    outletKnown (setKey c "outlet" (Value.str outlet)) = true ∧
    outletScoped (setKey c "outlet" (Value.str outlet)) = true := by
  have e1 : setKey c "outlet" (Value.str outlet) "outlet" = some (Value.str outlet) := by
    simp [setKey]
  have e2 : setKey c "outlet" (Value.str outlet) "city" = some (Value.str city) := by
    simp [setKey, hc]
  have k := outletsOf_known city outlet ho
  unfold outletKnown outletScoped
  rw [e1, e2]
  simp only [Bool.and_eq_true, decide_eq_true_eq]
  exact ⟨k, ho⟩

theorem handleGreetingState_effect (L : GoStrings) (message : String) (context : Context) :
    (handleGreetingState L message context).2.2 = context ∨
    (handleGreetingState L message context).2.2 =
      setKey context "city" (Value.str "delhi") ∨
    (handleGreetingState L message context).2.2 =
      setKey context "city" (Value.str "bangalore") := by
  unfold handleGreetingState
  split_ifs
  · exact Or.inl rfl
  · exact Or.inl rfl
  · exact Or.inr (Or.inl rfl)
  · exact Or.inr (Or.inr rfl)
  · exact Or.inl rfl

theorem handleCityState_effect (L : GoStrings) (message : String) (context : Context) :
    (handleCityState L message context).2.2 = context ∨
    (handleCityState L message context).2.2 =
      setKey context "city" (Value.str "delhi") ∨
    (handleCityState L message context).2.2 =
      setKey context "city" (Value.str "bangalore") := by
  unfold handleCityState
  split_ifs
  · exact Or.inr (Or.inl rfl)
  · exact Or.inr (Or.inr rfl)
  · exact Or.inl rfl

theorem delhiOutlet_mem (L : GoStrings) (message : String) (o r : String)
    (h : delhiOutlet L message = some (o, r)) : o ∈ outletsOf "delhi" := by
  unfold delhiOutlet at h
  split_ifs at h <;> cases h <;> decide

theorem bangaloreOutlet_mem (L : GoStrings) (message : String) (o r : String)
    (h : bangaloreOutlet L message = some (o, r)) : o ∈ outletsOf "bangalore" := by
  unfold bangaloreOutlet at h
  split_ifs at h <;> cases h <;> decide

theorem handleOutletState_effect (L : GoStrings) (message : String) (context : Context) :
    (handleOutletState L message context).2.2 = context ∨
    ((handleOutletState L message context).1 = "reservation" ∧
      ∃ c o, context "city" = some (Value.str c) ∧ o ∈ outletsOf c ∧
        (handleOutletState L message context).2.2 =
          setKey context "outlet" (Value.str o)) := by
  unfold handleOutletState
  simp only
  by_cases hd : getString context "city" = "delhi"
  · have hc := (getString_eq_iff context "city" "delhi" (by decide)).1 hd
    rw [if_pos hd]
    cases h : delhiOutlet L message with
    | some p =>
      obtain ⟨o, r⟩ := p
      exact Or.inr ⟨rfl, "delhi", o, hc, delhiOutlet_mem L message o r h, rfl⟩
    | none =>
      have hb : ¬ getString context "city" = "bangalore" := by
        rw [hd]
        decide
      simp only [hb, if_false, hd, if_true]
      exact Or.inl rfl
  · rw [if_neg hd]
    simp only
    by_cases hb : getString context "city" = "bangalore"
    · have hc := (getString_eq_iff context "city" "bangalore" (by decide)).1 hb
      rw [if_pos hb]
      cases h : bangaloreOutlet L message with
      | some p =>
        obtain ⟨o, r⟩ := p
        exact Or.inr ⟨rfl, "bangalore", o, hc, bangaloreOutlet_mem L message o r h, rfl⟩
      | none =>
        simp only [hd, hb, if_false, if_true]
        exact Or.inl rfl
    · simp [hd, hb]

theorem handleReservationState_keys (L : GoStrings) (message : String)
    (context : Context) :
    (handleReservationState L message context).2.2 "city" = context "city" ∧
    (handleReservationState L message context).2.2 "outlet" = context "outlet" := by
  rw [handleReservationState_context]
  split_ifs <;> simp [setKey]

theorem handleContactState_keys (L : GoStrings) (message : String) (context : Context) :
    (handleContactState L message context).2.2 "city" = context "city" ∧
    (handleContactState L message context).2.2 "outlet" = context "outlet" := by
  unfold handleContactState
  split_ifs <;> simp [setKey]

theorem handleConfirmationState_keys (L : GoStrings) (message : String)
    (context : Context) (draw : Nat) :
    (handleConfirmationState L message context draw).2.2.1 "city" = context "city" ∧
    (handleConfirmationState L message context draw).2.2.1 "outlet" =
      context "outlet" := by
  unfold handleConfirmationState
  split_ifs <;> simp [setKey]

/-- What one transition does to the keys `city` and `outlet`.  From
Reservation, Contact, Confirmation and End both keys are kept and the next
state is again one of these four, unless Confirmation restarts at `"city"`.
From every other current state the context is kept, or `city` is set to
`delhi` or `bangalore`, or the next state is `"reservation"` and `outlet` is
set to an outlet of the city that the context holds. -/
theorem transition_effect (L : GoStrings) (cs message : String) (context : Context)
    (draw : Nat) :
    (cs ∈ ["reservation", "contact", "confirmation", "end"] ∧
      ((stateFlowHandler L cs message context draw).nextState ∈
          ["reservation", "contact", "confirmation", "end"] ∨
        (cs = "confirmation" ∧
          (stateFlowHandler L cs message context draw).nextState = "city")) ∧
      (stateFlowHandler L cs message context draw).context "city" = context "city" ∧
      (stateFlowHandler L cs message context draw).context "outlet" = context "outlet") ∨
    (cs ∉ ["reservation", "contact", "confirmation", "end"] ∧
      ((stateFlowHandler L cs message context draw).context = context ∨
        (stateFlowHandler L cs message context draw).context =
          setKey context "city" (Value.str "delhi") ∨
        (stateFlowHandler L cs message context draw).context =
          setKey context "city" (Value.str "bangalore") ∨
        ((stateFlowHandler L cs message context draw).nextState = "reservation" ∧
          ∃ c o, context "city" = some (Value.str c) ∧ o ∈ outletsOf c ∧
            (stateFlowHandler L cs message context draw).context =
              setKey context "outlet" (Value.str o)))) := by
  by_cases h : cs ∈ definedStates
  · simp only [definedStates, List.mem_cons, List.mem_singleton, List.not_mem_nil,
      or_false, StateGreeting, StateCity, StateOutlet, StateReservation, StateContact,
      StateConfirmation, StateEnd] at h
    rcases h with h | h | h | h | h | h | h <;> subst h
    · right
      rw [stateFlowHandler_greeting]
      refine ⟨by decide, ?_⟩
      rcases handleGreetingState_effect L message context with e | e | e
      · exact Or.inl e
      · exact Or.inr (Or.inl e)
      · exact Or.inr (Or.inr (Or.inl e))
    · right
      rw [stateFlowHandler_city]
      refine ⟨by decide, ?_⟩
      rcases handleCityState_effect L message context with e | e | e
      · exact Or.inl e
      · exact Or.inr (Or.inl e)
      · exact Or.inr (Or.inr (Or.inl e))
    · right
      rw [stateFlowHandler_outlet]
      refine ⟨by decide, ?_⟩
      rcases handleOutletState_effect L message context with e | e
      · exact Or.inl e
      · exact Or.inr (Or.inr (Or.inr e))
    · left
      rw [stateFlowHandler_reservation]
      refine ⟨by decide, Or.inl ?_, handleReservationState_keys L message context⟩
      rcases handleReservationState_state L message context with e | e <;>
        simp only [e] <;> decide
    · left
      rw [stateFlowHandler_contact]
      refine ⟨by decide, Or.inl ?_, handleContactState_keys L message context⟩
      rcases handleContactState_state L message context with e | e <;>
        simp only [e] <;> decide
    · left
      rw [stateFlowHandler_confirmation]
      refine ⟨by decide, ?_, handleConfirmationState_keys L message context draw⟩
      rcases handleConfirmationState_state L message context draw with e | e | e
      · left
        simp only [e]
        decide
      · exact Or.inr ⟨rfl, e⟩
      · left
        simp only [e]
        decide
    · left
      rw [stateFlowHandler_end]
      exact ⟨by decide, Or.inl (by simp), rfl, rfl⟩
  · right
    have hl : cs ∉ ["reservation", "contact", "confirmation", "end"] := by
      intro hm
      apply h
      simp only [List.mem_cons, List.mem_singleton, List.not_mem_nil, or_false] at hm
      simp only [definedStates, List.mem_cons, List.mem_singleton, List.not_mem_nil,
        or_false, StateGreeting, StateCity, StateOutlet, StateReservation, StateContact,
        StateConfirmation, StateEnd]
      tauto
    refine ⟨hl, ?_⟩
    by_cases h0 : cs = ""
    · subst h0
      rw [stateFlowHandler_empty, stateFlowHandler_greeting]
      rcases handleGreetingState_effect L message context with e | e | e
      · exact Or.inl e
      · exact Or.inr (Or.inl e)
      · exact Or.inr (Or.inr (Or.inl e))
    · rw [stateFlowHandler_default L cs message context draw h0 h]
      exact Or.inl rfl

theorem outletKnown_spec (c : Context) (h : outletKnown c = true) (v : Value)
    (hv : c "outlet" = some v) :
    ∃ city outlet, v = Value.str outlet ∧ c "city" = some (Value.str city) ∧
      (city = "delhi" ∨ city = "bangalore") ∧
      outlet ∈ delhiOutlets ++ bangaloreOutlets := by
  unfold outletKnown at h
  rw [hv] at h
  cases v with
  | str o =>
    simp only at h
    cases hc : c "city" with
    | none => rw [hc] at h; simp at h
    | some w =>
      rw [hc] at h
      cases w with
      | str c0 =>
        simp only [Bool.and_eq_true, decide_eq_true_eq] at h
        exact ⟨c0, o, rfl, rfl, h.1, h.2⟩
      | _ => simp at h
  | _ => simp at h

theorem outletScoped_spec (c : Context) (h : outletScoped c = true) (v : Value)
    (hv : c "outlet" = some v) :
    ∃ city outlet, v = Value.str outlet ∧ c "city" = some (Value.str city) ∧
      (city = "delhi" ∨ city = "bangalore") ∧ outlet ∈ outletsOf city := by
  unfold outletScoped at h
  rw [hv] at h
  cases v with
  | str o =>
    simp only at h
    cases hc : c "city" with
    | none => rw [hc] at h; simp at h
    | some w =>
      rw [hc] at h
      cases w with
      | str c0 =>
        simp only [decide_eq_true_eq] at h
        exact ⟨c0, o, rfl, rfl, (outletsOf_known c0 o h).1, h⟩
      | _ => simp at h
  | _ => simp at h

theorem outletScoped_of_none (c : Context) (h : c "outlet" = none) :
    outletScoped c = true := by
  unfold outletScoped
  rw [h]

theorem outletKnown_step (L : GoStrings) (cs message : String) (context : Context)
    (draw : Nat) (h : outletKnown context = true) :
    outletKnown (stateFlowHandler L cs message context draw).context = true := by
  rcases transition_effect L cs message context draw with
    ⟨_, _, e1, e2⟩ | ⟨_, e | e | e | ⟨_, c, o, hc, ho, e⟩⟩
  · rw [outletKnown_congr context _ e1 e2]
    exact h
  · rw [e]
    exact h
  · rw [e]
    exact outletKnown_setCity context "delhi" (Or.inl rfl) h
  · rw [e]
    exact outletKnown_setCity context "bangalore" (Or.inr rfl) h
  · rw [e]
    exact (outletKnown_setOutlet context c o hc ho).1

theorem outletScoped_step (L : GoStrings) (cs message : String) (context : Context)
    (draw : Nat) (h : outletScoped context = true)
    (hs : cs ∈ ["reservation", "contact", "confirmation", "end"] ∨ context "outlet" = none)
    (hr : ¬ (cs = "confirmation" ∧
      (stateFlowHandler L cs message context draw).nextState = "city")) :
    outletScoped (stateFlowHandler L cs message context draw).context = true ∧
    ((stateFlowHandler L cs message context draw).nextState ∈
        ["reservation", "contact", "confirmation", "end"] ∨
      (stateFlowHandler L cs message context draw).context "outlet" = none) := by
  rcases transition_effect L cs message context draw with
    ⟨_, hn, e1, e2⟩ | ⟨hl, e | e | e | ⟨hn, c, o, hc, ho, e⟩⟩
  · rw [outletScoped_congr context _ e1 e2]
    rcases hn with hn | hn
    · exact ⟨h, Or.inl hn⟩
    · exact absurd hn hr
  · have ho : context "outlet" = none := hs.resolve_left hl
    rw [e]
    exact ⟨h, Or.inr ho⟩
  · have ho : context "outlet" = none := hs.resolve_left hl
    have ho2 : setKey context "city" (Value.str "delhi") "outlet" = none := by
      simp [setKey, ho]
    rw [e]
    exact ⟨outletScoped_of_none _ ho2, Or.inr ho2⟩
  · have ho : context "outlet" = none := hs.resolve_left hl
    have ho2 : setKey context "city" (Value.str "bangalore") "outlet" = none := by
      simp [setKey, ho]
    rw [e]
    exact ⟨outletScoped_of_none _ ho2, Or.inr ho2⟩
  · rw [e]
    refine ⟨(outletKnown_setOutlet context c o hc ho).2, Or.inl ?_⟩
    rw [hn]
    decide

theorem converse_known (L : GoStrings) (turns : List (String × Nat)) :
    ∀ sc : ConversationState × Context, outletKnown sc.2 = true →
      outletKnown (converse L sc turns).2 = true := by
  induction turns with
  | nil => exact fun sc h => h
  | cons m ms ih =>
    intro sc h
    rw [converse]
    exact ih _ (outletKnown_step L sc.1 m.1 sc.2 m.2 h)

theorem converse_scoped (L : GoStrings) (turns : List (String × Nat)) :
    ∀ sc : ConversationState × Context, outletScoped sc.2 = true →
      (sc.1 ∈ ["reservation", "contact", "confirmation", "end"] ∨ sc.2 "outlet" = none) →
      restartFree L sc turns = true →
      outletScoped (converse L sc turns).2 = true := by
  induction turns with
  | nil => exact fun sc h _ _ => h
  | cons m ms ih =>
    intro sc h hs hf
    rw [restartFree, Bool.and_eq_true] at hf
    have hr : ¬ (sc.1 = "confirmation" ∧
        (stateFlowHandler L sc.1 m.1 sc.2 m.2).nextState = "city") := by
      intro hc
      have h1 := hf.1
      simp only [Bool.not_eq_true', Bool.and_eq_false_iff, decide_eq_false_iff_not] at h1
      rcases h1 with h1 | h1
      · exact h1 hc.1
      · exact h1 hc.2
    have st := outletScoped_step L sc.1 m.1 sc.2 m.2 h hs hr
    rw [converse]
    exact ih _ st.1 st.2 hf.2

theorem handleOutletState_cases (L : GoStrings) (message : String) (context : Context) :
    ((handleOutletState L message context).1 ≠ "reservation" ∧
      (handleOutletState L message context).2.2 = context) ∨
    ((handleOutletState L message context).1 = "reservation" ∧
      ∃ c o, context "city" = some (Value.str c) ∧ o ∈ outletsOf c ∧
        (handleOutletState L message context).2.2 =
          setKey context "outlet" (Value.str o)) := by
  unfold handleOutletState
  simp only
  by_cases hd : getString context "city" = "delhi"
  · have hc := (getString_eq_iff context "city" "delhi" (by decide)).1 hd
    rw [if_pos hd]
    cases h : delhiOutlet L message with
    | some p =>
      obtain ⟨o, r⟩ := p
      exact Or.inr ⟨rfl, "delhi", o, hc, delhiOutlet_mem L message o r h, rfl⟩
    | none =>
      have hb : ¬ getString context "city" = "bangalore" := by
        rw [hd]
        decide
      simp only [hb, if_false, hd, if_true]
      exact Or.inl ⟨by simp [StateOutlet], rfl⟩
  · rw [if_neg hd]
    simp only
    by_cases hb : getString context "city" = "bangalore"
    · have hc := (getString_eq_iff context "city" "bangalore" (by decide)).1 hb
      rw [if_pos hb]
      cases h : bangaloreOutlet L message with
      | some p =>
        obtain ⟨o, r⟩ := p
        exact Or.inr ⟨rfl, "bangalore", o, hc, bangaloreOutlet_mem L message o r h, rfl⟩
      | none =>
        simp only [hd, hb, if_false, if_true]
        exact Or.inl ⟨by simp [StateOutlet], rfl⟩
    · simp [hd, hb, StateCity]

/-- A transition from a state other than Reservation, Contact, Confirmation
and End reaches one of these four only through a successful Outlet turn: the
next state is `"reservation"` and `outlet` is set to an outlet of the city
that the context holds. -/
theorem transition_enters_late (L : GoStrings) (cs message : String) (context : Context)
    (draw : Nat) (hl : cs ∉ ["reservation", "contact", "confirmation", "end"])
    (hn : (stateFlowHandler L cs message context draw).nextState ∈
      ["reservation", "contact", "confirmation", "end"]) :
    ∃ c o, context "city" = some (Value.str c) ∧ o ∈ outletsOf c ∧
      (stateFlowHandler L cs message context draw).context =
        setKey context "outlet" (Value.str o) := by
  by_cases h : cs ∈ definedStates
  · simp only [definedStates, List.mem_cons, List.mem_singleton, List.not_mem_nil,
      or_false, StateGreeting, StateCity, StateOutlet, StateReservation, StateContact,
      StateConfirmation, StateEnd] at h
    rcases h with h | h | h | h | h | h | h <;> subst h
    · exfalso
      rw [stateFlowHandler_greeting] at hn
      rcases handleGreetingState_state L message context with e | e <;>
        simp [e] at hn
    · exfalso
      rw [stateFlowHandler_city] at hn
      rcases handleCityState_state L message context with e | e <;>
        simp [e] at hn
    · rw [stateFlowHandler_outlet] at hn ⊢
      rcases handleOutletState_cases L message context with ⟨e, _⟩ | ⟨_, e⟩
      · exfalso
        rcases handleOutletState_state L message context with s | s | s
        · simp [s] at hn
        · simp [s] at hn
        · exact e s
      · exact e
    · exact absurd (by decide) hl
    · exact absurd (by decide) hl
    · exact absurd (by decide) hl
    · exact absurd (by decide) hl
  · exfalso
    by_cases h0 : cs = ""
    · subst h0
      rw [stateFlowHandler_empty, stateFlowHandler_greeting] at hn
      rcases handleGreetingState_state L message context with e | e <;>
        simp [e] at hn
    · rw [stateFlowHandler_default L cs message context draw h0 h] at hn
      simp at hn

/-- A turn that leaves `city` as it was keeps the scoping property. -/
theorem outletScoped_kept (L : GoStrings) (cs message : String) (context : Context)
    (draw : Nat) (h : outletScoped context = true)
    (hc : (stateFlowHandler L cs message context draw).context "city" = context "city") :
    outletScoped (stateFlowHandler L cs message context draw).context = true := by
  rcases transition_effect L cs message context draw with
    ⟨_, _, e1, e2⟩ | ⟨_, e | e | e | ⟨_, c, o, hcity, ho, e⟩⟩
  · rw [outletScoped_congr context _ e1 e2]
    exact h
  · rw [e]
    exact h
  · have e2 : (stateFlowHandler L cs message context draw).context "outlet" =
        context "outlet" := by
      rw [e]
      simp [setKey]
    rw [outletScoped_congr context _ hc e2]
    exact h
  · have e2 : (stateFlowHandler L cs message context draw).context "outlet" =
        context "outlet" := by
      rw [e]
      simp [setKey]
    rw [outletScoped_congr context _ hc e2]
    exact h
  · rw [e]
    exact (outletKnown_setOutlet context c o hcity ho).2

/-- Scoping in the four late states is an invariant of one transition. -/
theorem outletScoped_late_step (L : GoStrings) (cs message : String) (context : Context)
    (draw : Nat)
    (h : cs ∈ ["reservation", "contact", "confirmation", "end"] →
      outletScoped context = true)
    (hn : (stateFlowHandler L cs message context draw).nextState ∈
      ["reservation", "contact", "confirmation", "end"]) :
    outletScoped (stateFlowHandler L cs message context draw).context = true := by
  by_cases hl : cs ∈ ["reservation", "contact", "confirmation", "end"]
  · rcases transition_effect L cs message context draw with ⟨_, _, e1, e2⟩ | ⟨hl2, _⟩
    · rw [outletScoped_congr context _ e1 e2]
      exact h hl
    · exact absurd hl hl2
  · obtain ⟨c, o, hc, ho, e⟩ := transition_enters_late L cs message context draw hl hn
    rw [e]
    exact (outletKnown_setOutlet context c o hc ho).2

theorem converse_late_scoped (L : GoStrings) (turns : List (String × Nat)) :
    ∀ sc : ConversationState × Context,
      (sc.1 ∈ ["reservation", "contact", "confirmation", "end"] →
        outletScoped sc.2 = true) →
      (converse L sc turns).1 ∈ ["reservation", "contact", "confirmation", "end"] →
      outletScoped (converse L sc turns).2 = true := by
  induction turns with
  | nil => exact fun sc h hl => h hl
  | cons m ms ih =>
    intro sc h
    rw [converse]
    exact ih _ (outletScoped_late_step L sc.1 m.1 sc.2 m.2 h)

theorem converse_append (L : GoStrings) (turns : List (String × Nat)) (m : String × Nat) :
    ∀ sc : ConversationState × Context,
      converse L sc (turns ++ [m]) =
        ((stateFlowHandler L (converse L sc turns).1 m.1 (converse L sc turns).2
            m.2).nextState,
          (stateFlowHandler L (converse L sc turns).1 m.1 (converse L sc turns).2
            m.2).context) := by
  induction turns with
  | nil => exact fun sc => rfl
  | cons t ts ih =>
    intro sc
    rw [List.cons_append, converse, converse]
    exact ih _

/-- C19 (as stated, refuted): after `"Delhi"`, `"cp"`, `"today at noon"`,
`"9876543210"`, the answer `"no"` at Confirmation returns to `"city"` with the
context kept, and `"Bangalore"` then replaces the city: the context holds
`city = "bangalore"` with the stale `outlet = "connaught_place"`, which is not
an outlet of Bangalore. -/
theorem stale_outlet_after_restart :
    (converse asciiStrings ("greeting", emptyContext)
      [("Delhi", 0), ("cp", 0), ("today at noon", 0), ("9876543210", 0), ("no", 0),
        ("Bangalore", 0)]).2 "city" = some (Value.str "bangalore") ∧
    (converse asciiStrings ("greeting", emptyContext)
      [("Delhi", 0), ("cp", 0), ("today at noon", 0), ("9876543210", 0), ("no", 0),
        ("Bangalore", 0)]).2 "outlet" = some (Value.str "connaught_place") ∧
    "connaught_place" ∉ outletsOf "bangalore" ∧
    outletScoped (converse asciiStrings ("greeting", emptyContext)
      [("Delhi", 0), ("cp", 0), ("today at noon", 0), ("9876543210", 0), ("no", 0),
        ("Bangalore", 0)]).2 = false :=
  ⟨by rfl, by rfl, by decide, by rfl⟩


/-- C19 (amended): in every conversation that starts in the Greeting state
with an empty context, whenever the context contains an outlet it also
contains a city that is `delhi` or `bangalore`, and the outlet is one of the
seven outlets of the catalog.  The outlet is one of the outlets of that very
city whenever the conversation is in the Reservation, Contact, Confirmation
or End state, and in every state as long as no turn was a restart (a
Confirmation turn answered with next state `"city"`).  A further turn keeps
the scoping whenever it leaves `city` as it was: only a turn that changes the
city while an outlet is stored breaks it. -/
theorem outlet_scoped_conversation (L : GoStrings) (turns : List (String × Nat)) :
    (∀ v, (converse L ("greeting", emptyContext) turns).2 "outlet" = some v →
      ∃ city outlet, v = Value.str outlet ∧
        (converse L ("greeting", emptyContext) turns).2 "city" = some (Value.str city) ∧
        (city = "delhi" ∨ city = "bangalore") ∧
        outlet ∈ delhiOutlets ++ bangaloreOutlets) ∧
    ((converse L ("greeting", emptyContext) turns).1 ∈
        ["reservation", "contact", "confirmation", "end"] →
      ∀ v, (converse L ("greeting", emptyContext) turns).2 "outlet" = some v →
        ∃ city outlet, v = Value.str outlet ∧
          (converse L ("greeting", emptyContext) turns).2 "city" =
            some (Value.str city) ∧
          (city = "delhi" ∨ city = "bangalore") ∧ outlet ∈ outletsOf city) ∧
    (restartFree L ("greeting", emptyContext) turns = true →
      ∀ v, (converse L ("greeting", emptyContext) turns).2 "outlet" = some v →
        ∃ city outlet, v = Value.str outlet ∧
          (converse L ("greeting", emptyContext) turns).2 "city" =
            some (Value.str city) ∧
          (city = "delhi" ∨ city = "bangalore") ∧ outlet ∈ outletsOf city) ∧
    (∀ m : String × Nat,
      outletScoped (converse L ("greeting", emptyContext) turns).2 = true →
      (converse L ("greeting", emptyContext) (turns ++ [m])).2 "city" =
        (converse L ("greeting", emptyContext) turns).2 "city" →
      outletScoped (converse L ("greeting", emptyContext) (turns ++ [m])).2 = true) := by
  refine ⟨?_, ?_, ?_, ?_⟩
  · exact outletKnown_spec _ (converse_known L turns ("greeting", emptyContext) rfl)
  · intro hl
    exact outletScoped_spec _
      (converse_late_scoped L turns ("greeting", emptyContext)
        (fun h => absurd h (by decide)) hl)
  · intro hf
    exact outletScoped_spec _
      (converse_scoped L turns ("greeting", emptyContext) rfl (Or.inr rfl) hf)
  · intro m hs hc
    rw [converse_append] at hc ⊢
    exact outletScoped_kept L _ m.1 _ m.2 hs hc

/-- Witness of `outlet_scoped_conversation`: after `"Delhi"` and `"cp"` the
context holds an outlet of Delhi; and after a restart and a change of city,
the next Outlet turn (`"indiranagar"`) stores an outlet of Bangalore. -/
theorem outlet_scoped_conversation_witness :
    restartFree asciiStrings ("greeting", emptyContext) [("Delhi", 0), ("cp", 0)] = true ∧
    (∃ city outlet, Value.str "connaught_place" = Value.str outlet ∧
      (converse asciiStrings ("greeting", emptyContext) [("Delhi", 0), ("cp", 0)]).2
        "city" = some (Value.str city) ∧
      (city = "delhi" ∨ city = "bangalore") ∧ outlet ∈ outletsOf city) ∧
    restartFree asciiStrings ("greeting", emptyContext)
      [("Delhi", 0), ("cp", 0), ("today at noon", 0), ("9876543210", 0), ("no", 0),
        ("Bangalore", 0), ("indiranagar", 0)] = false ∧
    (converse asciiStrings ("greeting", emptyContext)
      [("Delhi", 0), ("cp", 0), ("today at noon", 0), ("9876543210", 0), ("no", 0),
        ("Bangalore", 0), ("indiranagar", 0)]).1 = "reservation" ∧
    (∃ city outlet, Value.str "indiranagar" = Value.str outlet ∧
      (converse asciiStrings ("greeting", emptyContext)
        [("Delhi", 0), ("cp", 0), ("today at noon", 0), ("9876543210", 0), ("no", 0),
          ("Bangalore", 0), ("indiranagar", 0)]).2 "city" = some (Value.str city) ∧
      (city = "delhi" ∨ city = "bangalore") ∧ outlet ∈ outletsOf city) :=
  ⟨by decide,
   (outlet_scoped_conversation asciiStrings [("Delhi", 0), ("cp", 0)]).2.2.1 (by decide)
      (Value.str "connaught_place") (by rfl),
   by decide,
   by decide,
   (outlet_scoped_conversation asciiStrings
      [("Delhi", 0), ("cp", 0), ("today at noon", 0), ("9876543210", 0), ("no", 0),
        ("Bangalore", 0), ("indiranagar", 0)]).2.1 (by decide)
      (Value.str "indiranagar") (by rfl)⟩

end Chatbot
